import Mathlib

/-!
# Verification of the Arke edit SDK core

Shallow embedding of the SDK's diff engine, prompt composer, remote client
and edit session (from `src/diff.ts`, `src/session.ts`, `src/client.ts`,
`src/prompts.ts`), together with theorems settling the specification
claims.  External collaborators (the `diff` npm library, the HTTP
services) are modelled as oracles supplying their observable outputs;
everything the repository itself computes is translated faithfully.
-/

set_option maxHeartbeats 1000000

/-! ## JavaScript-style whitespace utilities

`DiffEngine.hasSignificantChanges` normalizes via
`s.replace(/\s+/g, ' ').trim()`.  We model characters matched by `\s`
(ASCII fragment) and the replace/trim pipeline over `List Char`.
-/

/-- Characters matched by the JavaScript `\s` class (ASCII fragment). -/
def isJsWs (c : Char) : Bool :=
  c = ' ' || c = '\t' || c = '\n' || c = '\r' || c = '\x0b' || c = '\x0c'

/-- State machine for `replace(/\s+/g, ' ')`: the boolean records whether we
are inside a whitespace run whose single replacement space was already
emitted. -/
def collapseAux : List Char → Bool → List Char
  | [], _ => []
  | c :: cs, prevWs =>
    if isJsWs c then
      if prevWs then collapseAux cs true else ' ' :: collapseAux cs true
    else c :: collapseAux cs false

/-- `s.replace(/\s+/g, ' ')` on the character list. -/
def replaceWsRuns (l : List Char) : List Char := collapseAux l false

/-- Drop trailing whitespace (the back half of `trim`). -/
def trimBack (l : List Char) : List Char := (l.reverse.dropWhile isJsWs).reverse

/-- JavaScript `String.prototype.trim` on a character list. -/
def jsTrimList (l : List Char) : List Char := trimBack (l.dropWhile isJsWs)

/-- JavaScript `String.prototype.trim`. -/
def jsTrim (s : String) : String := String.mk (jsTrimList s.data)

/-- JavaScript `String.prototype.trimEnd`. -/
def jsTrimEnd (s : String) : String := String.mk (trimBack s.data)

/-- `s.replace(/\s+/g, ' ').trim()`, the normalization used by
`hasSignificantChanges`. -/
def normalizeWs (s : String) : String := String.mk (jsTrimList (replaceWsRuns s.data))

/-- `DiffEngine.hasSignificantChanges` (src/diff.ts:197-201): compare the
whitespace-normalized strings for inequality. -/
def hasSignificantChanges (original modified : String) : Bool :=
  normalizeWs original != normalizeWs modified

/-- Maximal runs of non-whitespace characters (the whitespace-insensitive
token content of a string); the accumulator holds the current word
reversed. -/
def tokensAux : List Char → List Char → List (List Char)
  | [], acc => if acc = [] then [] else [acc.reverse]
  | c :: cs, acc =>
    if isJsWs c then
      if acc = [] then tokensAux cs [] else acc.reverse :: tokensAux cs []
    else tokensAux cs (c :: acc)

/-- The whitespace-separated tokens of a character list. -/
def wsTokens (l : List Char) : List (List Char) := tokensAux l []

/-- Join tokens with single spaces. -/
def joinTokens : List (List Char) → List Char
  | [] => []
  | [t] => t
  | t :: t' :: ts => t ++ ' ' :: joinTokens (t' :: ts)

/-! ### Lemmas: the normalization is exactly the space-joined token list -/

theorem dropWhile_append_of_ne_nil {p : Char → Bool} :
    ∀ (xs ys : List Char), xs.dropWhile p ≠ [] →
      (xs ++ ys).dropWhile p = xs.dropWhile p ++ ys := by
  intro xs ys h
  induction xs with
  | nil => simp [List.dropWhile] at h
  | cons c cs ih =>
    by_cases hc : p c
    · simp only [List.dropWhile, hc, List.cons_append] at *
      exact ih h
    · simp [List.dropWhile, hc]

theorem trimBack_append_of_ne_nil (a b : List Char) (h : trimBack b ≠ []) :
    trimBack (a ++ b) = a ++ trimBack b := by
  unfold trimBack at *
  have hb : b.reverse.dropWhile isJsWs ≠ [] := by
    intro hnil; apply h; rw [hnil]; rfl
  rw [List.reverse_append, dropWhile_append_of_ne_nil _ _ hb, List.reverse_append,
    List.reverse_reverse]

theorem trimBack_all_not_ws (l : List Char) (h : ∀ c ∈ l, ¬ isJsWs c) :
    trimBack l = l := by
  unfold trimBack
  have : l.reverse.dropWhile isJsWs = l.reverse := by
    cases hrev : l.reverse with
    | nil => rfl
    | cons c cs =>
      have hc : c ∈ l := by
        rw [← List.mem_reverse, hrev]; exact List.mem_cons_self _ _
      simp [List.dropWhile, h c hc]
  rw [this, List.reverse_reverse]

theorem collapseAux_true_all_ws (l : List Char) (h : ∀ c ∈ l, isJsWs c) :
    collapseAux l true = [] := by
  induction l with
  | nil => rfl
  | cons c cs ih =>
    have hc := h c (List.mem_cons_self _ _)
    simp only [collapseAux, hc, if_true]
    exact ih (fun d hd => h d (List.mem_cons_of_mem _ hd))

theorem tokensAux_ne_nil (l : List Char) (acc : List Char) (h : acc ≠ []) :
    tokensAux l acc ≠ [] := by
  induction l generalizing acc with
  | nil => simp [tokensAux, h]
  | cons c cs ih =>
    by_cases hc : isJsWs c
    · simp [tokensAux, hc, h]
    · simpa [tokensAux, hc] using ih (c :: acc) (by simp)

theorem all_ws_of_tokensAux_nil (l : List Char) (h : tokensAux l [] = []) :
    ∀ c ∈ l, isJsWs c := by
  induction l with
  | nil => intro c hc; cases hc
  | cons c cs ih =>
    intro d hd
    by_cases hc : isJsWs c
    · simp only [tokensAux, hc, if_true, if_pos rfl] at h
      rcases List.mem_cons.mp hd with rfl | hdm
      · exact hc
      · exact ih h d hdm
    · exfalso
      simp only [tokensAux, hc, if_false] at h
      exact tokensAux_ne_nil cs [c] (by simp) h

theorem dropWhile_eq_self_of_all {p : Char → Bool} (l : List Char)
    (h : ∀ c ∈ l, ¬ p c) : l.dropWhile p = l := by
  cases l with
  | nil => rfl
  | cons c cs => simp [List.dropWhile, h c (List.mem_cons_self _ _)]

theorem tokensAux_tokens_ne_nil :
    ∀ (l : List Char) (acc : List Char), acc ≠ [] ∨ acc = [] →
      ∀ t ∈ tokensAux l acc, t ≠ [] := by
  intro l
  induction l with
  | nil =>
    intro acc _ t ht
    by_cases h : acc = []
    · simp [tokensAux, h] at ht
    · simp only [tokensAux, if_neg h, List.mem_singleton] at ht
      subst ht; simpa using h
  | cons c cs ih =>
    intro acc _ t ht
    by_cases hc : isJsWs c
    · by_cases h : acc = []
      · simp only [tokensAux, hc, if_true, if_pos h] at ht
        exact ih [] (Or.inr rfl) t ht
      · simp only [tokensAux, hc, if_true, if_neg h, List.mem_cons] at ht
        rcases ht with rfl | ht
        · simpa using h
        · exact ih [] (Or.inr rfl) t ht
    · simp only [tokensAux, hc, if_false] at ht
      exact ih (c :: acc) (Or.inl (by simp)) t ht

theorem joinTokens_ne_nil (t : List Char) (ts : List (List Char)) (h : t ≠ []) :
    joinTokens (t :: ts) ≠ [] := by
  cases ts with
  | nil => simpa [joinTokens] using h
  | cons t' ts' =>
    simp only [joinTokens]
    intro hx
    rcases List.append_eq_nil.mp hx with ⟨_, h2⟩
    cases h2

theorem collapseAux_cons_ws_true (c : Char) (cs : List Char) (hc : isJsWs c) :
    collapseAux (c :: cs) true = collapseAux cs true := by
  simp [collapseAux, hc]

theorem collapseAux_cons_ws_false (c : Char) (cs : List Char) (hc : isJsWs c) :
    collapseAux (c :: cs) false = ' ' :: collapseAux cs true := by
  simp [collapseAux, hc]

theorem collapseAux_cons_not_ws (c : Char) (cs : List Char) (b : Bool)
    (hc : ¬ isJsWs c) : collapseAux (c :: cs) b = c :: collapseAux cs false := by
  simp [collapseAux, hc]

theorem tokensAux_cons_ws_nil (c : Char) (cs : List Char) (hc : isJsWs c) :
    tokensAux (c :: cs) [] = tokensAux cs [] := by
  simp [tokensAux, hc]

theorem tokensAux_cons_ws (c : Char) (cs : List Char) (acc : List Char)
    (hc : isJsWs c) (hacc : acc ≠ []) :
    tokensAux (c :: cs) acc = acc.reverse :: tokensAux cs [] := by
  simp [tokensAux, hc, hacc]

theorem tokensAux_cons_not_ws (c : Char) (cs : List Char) (acc : List Char)
    (hc : ¬ isJsWs c) : tokensAux (c :: cs) acc = tokensAux cs (c :: acc) := by
  simp [tokensAux, hc]

/-- Core correspondence, proved by strong induction on length: in the
already-emitted-space state the trimmed collapse is the joined token list,
and in the in-word state (nonempty, whitespace-free accumulator) the
pending word prefixes it. -/
theorem collapse_tokens_core :
    ∀ (n : Nat) (l : List Char), l.length ≤ n →
      (trimBack (collapseAux l true) = joinTokens (tokensAux l [])) ∧
      (∀ acc, acc ≠ [] → (∀ c ∈ acc, ¬ isJsWs c) →
        trimBack (acc.reverse ++ collapseAux l false) = joinTokens (tokensAux l acc)) := by
  intro n
  induction n with
  | zero =>
    intro l hl
    have : l = [] := List.length_eq_zero.mp (Nat.le_zero.mp hl)
    subst this
    constructor
    · rfl
    · intro acc hacc hra
      simp only [collapseAux, List.append_nil, tokensAux, if_neg hacc, joinTokens]
      exact trimBack_all_not_ws _ (fun c hc => hra c (List.mem_reverse.mp hc))
  | succ n ih =>
    intro l hl
    cases l with
    | nil => exact ih [] (Nat.zero_le _)
    | cons c cs =>
      have hcs : cs.length ≤ n := Nat.le_of_succ_le_succ hl
      constructor
      · -- state: space already emitted
        by_cases hc : isJsWs c
        · rw [collapseAux_cons_ws_true c cs hc, tokensAux_cons_ws_nil c cs hc]
          exact (ih cs hcs).1
        · rw [collapseAux_cons_not_ws c cs true hc, tokensAux_cons_not_ws c cs [] hc]
          have := (ih cs hcs).2 [c] (by simp) (by simpa using hc)
          simpa using this
      · -- state: inside a word with pending accumulator
        intro acc hacc hra
        by_cases hc : isJsWs c
        · -- whitespace ends the current word
          rw [collapseAux_cons_ws_false c cs hc, tokensAux_cons_ws c cs acc hc hacc]
          by_cases htok : tokensAux cs [] = []
          · -- nothing further: the emitted space is trailing and trimmed away
            have hws := all_ws_of_tokensAux_nil cs htok
            rw [collapseAux_true_all_ws cs hws, htok]
            simp only [joinTokens]
            show trimBack (acc.reverse ++ [' ']) = acc.reverse
            unfold trimBack
            rw [List.reverse_append]
            simp only [List.reverse_cons, List.reverse_nil, List.nil_append,
              List.reverse_reverse]
            rw [show (([' '] ++ acc : List Char)).dropWhile isJsWs
                = acc.dropWhile isJsWs from by
              rw [List.singleton_append, List.dropWhile_cons]
              simp [isJsWs]]
            rw [dropWhile_eq_self_of_all acc hra]
          · -- further tokens follow: the space separates acc from them
            obtain ⟨t, ts, hts⟩ := List.exists_cons_of_ne_nil htok
            have htne : t ≠ [] :=
              tokensAux_tokens_ne_nil cs [] (Or.inr rfl) t (by rw [hts]; simp)
            have hjne : trimBack (collapseAux cs true) ≠ [] := by
              rw [(ih cs hcs).1, hts]
              exact joinTokens_ne_nil t ts htne
            have hsplit : acc.reverse ++ ' ' :: collapseAux cs true
                = (acc.reverse ++ [' ']) ++ collapseAux cs true := by simp
            rw [hsplit, trimBack_append_of_ne_nil _ _ hjne, (ih cs hcs).1, hts]
            simp [joinTokens]
        · -- the word continues
          rw [collapseAux_cons_not_ws c cs false hc, tokensAux_cons_not_ws c cs acc hc]
          have := (ih cs hcs).2 (c :: acc) (by simp)
            (by intro d hd
                rcases List.mem_cons.mp hd with rfl | hdm
                · simpa using hc
                · exact hra d hdm)
          simpa using this

theorem collapseAux_true_dropWhile (l : List Char) :
    (collapseAux l true).dropWhile isJsWs = collapseAux l true := by
  induction l with
  | nil => rfl
  | cons c cs ih =>
    by_cases hc : isJsWs c
    · rw [collapseAux_cons_ws_true c cs hc]; exact ih
    · rw [collapseAux_cons_not_ws c cs true hc, List.dropWhile_cons]
      simp [hc]

theorem collapseAux_false_dropWhile (l : List Char) :
    (collapseAux l false).dropWhile isJsWs = collapseAux l true := by
  cases l with
  | nil => rfl
  | cons c cs =>
    by_cases hc : isJsWs c
    · rw [collapseAux_cons_ws_false c cs hc, collapseAux_cons_ws_true c cs hc,
        List.dropWhile_cons]
      have hsp : isJsWs ' ' = true := by decide
      rw [hsp]
      simp only [if_true]
      exact collapseAux_true_dropWhile cs
    · rw [collapseAux_cons_not_ws c cs false hc, collapseAux_cons_not_ws c cs true hc,
        List.dropWhile_cons]
      simp [hc]

/-- The `hasSignificantChanges` normalization computes exactly the
space-joined whitespace-separated tokens. -/
theorem normalize_eq_joinTokens (l : List Char) :
    jsTrimList (replaceWsRuns l) = joinTokens (wsTokens l) := by
  unfold jsTrimList replaceWsRuns wsTokens
  rw [collapseAux_false_dropWhile]
  exact (collapse_tokens_core l.length l (Nat.le_refl _)).1

/-! ## Diff engine (src/diff.ts)

The `diff` npm library is an external collaborator: its change records
(`{added?, removed?, value}`) are supplied by oracles.  Everything the
`DiffEngine` computes from them is translated here.
-/

/-- A change record as produced by the external `diff` library. -/
structure DChange where
  added : Bool
  removed : Bool
  value : String
deriving DecidableEq

inductive DiffType where
  | addition
  | deletion
  | change
  | unchanged
deriving DecidableEq

structure TextDiff where
  type : DiffType
  original : Option String
  modified : Option String
  lineNumber : Option Nat
  context : Option String
deriving DecidableEq

structure ComponentDiff where
  componentName : String
  diffs : List TextDiff
  summary : String
  hasChanges : Bool
deriving DecidableEq

structure Correction where
  original : String
  corrected : String
  sourceFile : Option String
  context : Option String
deriving DecidableEq

/-- Newline count, i.e. `value.split('\n').length - 1`. -/
def nlCount (s : String) : Nat := s.data.count '\n'

/-- Loop body of `DiffEngine.diff` (src/diff.ts:12-43) over the library's
line-change records, tracking the 1-based merged-view line number. -/
def diffGo : List DChange → Nat → List TextDiff
  | [], _ => []
  | ch :: rest, line =>
    if ch.added then
      { type := .addition, original := none, modified := some (jsTrimEnd ch.value),
        lineNumber := some line, context := none } :: diffGo rest (line + nlCount ch.value)
    else if ch.removed then
      { type := .deletion, original := some (jsTrimEnd ch.value), modified := none,
        lineNumber := some line, context := none } :: diffGo rest line
    else diffGo rest (line + nlCount ch.value)

/-- `DiffEngine.diff`, with the library's `Diff.diffLines` as oracle `dl`. -/
def diffEngineDiff (dl : String → String → List DChange) (original modified : String) :
    List TextDiff :=
  diffGo (dl original modified) 1

/-- `DiffEngine.createComponentDiff` (src/diff.ts:72-98). -/
def createComponentDiff (dl : String → String → List DChange)
    (componentName original modified : String) : ComponentDiff :=
  let diffs := diffEngineDiff dl original modified
  let hasChanges := diffs.length > 0
  let additions := (diffs.filter (fun d => d.type = DiffType.addition)).length
  let deletions := (diffs.filter (fun d => d.type = DiffType.deletion)).length
  let aPlural := if additions > 1 then "s" else ""
  let dPlural := if deletions > 1 then "s" else ""
  let parts := (if additions > 0 then [toString additions ++ " addition" ++ aPlural] else [])
    ++ (if deletions > 0 then [toString deletions ++ " deletion" ++ dPlural] else [])
  let summary := if ¬ hasChanges then "No changes" else String.intercalate ", " parts
  { componentName := componentName, diffs := diffs, summary := summary,
    hasChanges := hasChanges }

/-- One rendered line of `DiffEngine.formatForPrompt`; `unchanged` records
render nothing. -/
def fmtDiffLine (d : TextDiff) : Option String :=
  let lp := match d.lineNumber with
    | some n => if n = 0 then "" else "Line " ++ toString n ++ ": "
    | none => ""
  match d.type with
  | .addition => some (lp ++ "+ " ++ (d.modified.getD "undefined"))
  | .deletion => some (lp ++ "- " ++ (d.original.getD "undefined"))
  | .change => some (lp ++ "\"" ++ d.original.getD "undefined" ++ "\" → \""
      ++ d.modified.getD "undefined" ++ "\"")
  | .unchanged => none

/-- `DiffEngine.formatForPrompt` (src/diff.ts:103-123). -/
def formatForPrompt (diffs : List TextDiff) : String :=
  if diffs.length = 0 then "No changes detected."
  else String.intercalate "\n" (diffs.filterMap fmtDiffLine)

/-- `DiffEngine.formatComponentDiffsForPrompt` (src/diff.ts:128-140). -/
def formatComponentDiffsForPrompt (cds : List ComponentDiff) : String :=
  String.intercalate "\n" ((cds.map (fun cd =>
    if cd.hasChanges then
      ["## Changes to " ++ cd.componentName ++ ":", formatForPrompt cd.diffs, ""]
    else [])).flatten)

/-- Scan loop of `DiffEngine.extractCorrections` (src/diff.ts:160-191): a
`removed` record immediately followed by an `added` record is consumed as a
pair (advancing by two) and emits a correction when both trimmed texts are
nonempty and different; any other record advances by one. -/
def extractCorrectionsGo : List DChange → Option String → List Correction
  | [], _ => []
  | [_], _ => []
  | c :: next :: rest, src =>
    if c.removed ∧ next.added then
      let removed := jsTrim c.value
      let added := jsTrim next.value
      (if removed ≠ "" ∧ added ≠ "" ∧ removed ≠ added then
        [{ original := removed, corrected := added, sourceFile := src, context := none }]
      else []) ++ extractCorrectionsGo rest src
    else extractCorrectionsGo (next :: rest) src

/-- `DiffEngine.extractCorrections`, with the library's `Diff.diffWords` as
oracle `wd`. -/
def extractCorrections (wd : String → String → List DChange)
    (original modified : String) (sourceFile : Option String) : List Correction :=
  extractCorrectionsGo (wd original modified) sourceFile

/-- No `removed` record is immediately followed by an `added` record. -/
def noAdjacentPair : List DChange → Bool
  | [] => true
  | [_] => true
  | c :: next :: rest => !(c.removed && next.added) && noAdjacentPair (next :: rest)

/-! ## Prompt composer (src/prompts.ts) -/

structure EntityContext where
  pi : String
  ver : Nat
  parentPi : Option String
  childrenCount : Nat
  currentContent : List (String × String)
deriving DecidableEq

structure CascadeContext where
  path : List String
  depth : Nat
  stopAtPi : Option String
deriving DecidableEq

/-- JavaScript truthiness of an optional string (`undefined` and `''` are
falsy). -/
def jsTruthyS (o : Option String) : Bool :=
  match o with
  | some s => s != ""
  | none => false

/-- JavaScript `a || b` on optional strings. -/
def jsOrS (a b : Option String) : Option String := if jsTruthyS a then a else b

/-- `PromptBuilder.buildAIPrompt` (src/prompts.ts:18-55). -/
def buildAIPrompt (userPrompt component : String) (ctx : EntityContext)
    (currentContent : Option String) : String :=
  let s1 := ["## Instructions for " ++ component, userPrompt, "",
    "## Entity Context", "- PI: " ++ ctx.pi, "- Current version: " ++ toString ctx.ver]
  let s2 := if jsTruthyS ctx.parentPi then ["- Parent: " ++ ctx.parentPi.getD ""] else []
  let s3 := if ctx.childrenCount > 0 then ["- Children: " ++ toString ctx.childrenCount]
    else []
  let s5 := if jsTruthyS currentContent then
      let cc := currentContent.getD ""
      ["## Current " ++ component ++ " content for reference:", "```", cc.take 2000]
        ++ (if cc.length > 2000 then ["... [truncated]"] else []) ++ ["```"]
    else []
  String.intercalate "\n" (s1 ++ s2 ++ s3 ++ [""] ++ s5)

/-- `PromptBuilder.buildEditReviewPrompt` (src/prompts.ts:60-126). -/
def buildEditReviewPrompt (componentDiffs : List ComponentDiff)
    (corrections : List Correction) (component : String)
    (userInstructions : Option String) : String :=
  let base := ["## Manual Edits Made", "",
    "The following manual edits were made to this entity:", ""]
  let diffContent := formatComponentDiffsForPrompt componentDiffs
  let s1 := if diffContent != "" then [diffContent] else []
  let s2 := if corrections.length > 0 then
      ["## Corrections Identified", ""] ++ corrections.map (fun cr =>
        let src := if jsTruthyS cr.sourceFile then " (in " ++ cr.sourceFile.getD "" ++ ")"
          else ""
        "- \"" ++ cr.original ++ "\" → \"" ++ cr.corrected ++ "\"" ++ src) ++ [""]
    else []
  let instr := if jsTruthyS userInstructions then userInstructions.getD ""
    else "Update the " ++ component ++ " to accurately reflect these changes. "
      ++ "Ensure any corrections are incorporated and the content is consistent."
  let s4 := if component = "pinax" then
      ["Update metadata fields to reflect any corrections. Pay special attention to dates, "
        ++ "names, and other factual information that may have been corrected."]
    else if component = "description" then
      ["Regenerate the description incorporating the changes. Maintain the overall tone "
        ++ "and structure while ensuring accuracy based on the corrections."]
    else if component = "cheimarros" then
      ["Update the knowledge graph to reflect any new or corrected entities, relationships, "
        ++ "and facts identified in the changes."]
    else []
  String.intercalate "\n" (base ++ s1 ++ s2 ++ ["## Instructions", instr, "", "## Guidance"]
    ++ s4)

/-- `PromptBuilder.buildCascadePrompt` (src/prompts.ts:131-159). -/
def buildCascadePrompt (basePrompt : String) (cc : CascadeContext) : String :=
  let s1 := [basePrompt, "", "## Cascade Context", "",
    "This edit is part of a cascading update. After updating this entity, "
      ++ "parent entities will also be updated to reflect these changes.", ""]
  let s2 := if cc.path.length > 1 then
      ["Cascade path: " ++ String.intercalate " → " cc.path, "Depth: " ++ toString cc.depth]
    else []
  let s3 := if jsTruthyS cc.stopAtPi then ["Cascade will stop at: " ++ cc.stopAtPi.getD ""]
    else []
  String.intercalate "\n" (s1 ++ s2 ++ s3 ++ ["",
    "Ensure the content accurately represents the source material so parent "
      ++ "aggregations will be correct."])

/-- `PromptBuilder.buildCombinedPrompt` (src/prompts.ts:164-188). -/
def buildCombinedPrompt (generalPrompt componentPrompt : Option String)
    (component : String) : String :=
  let s1 := if jsTruthyS generalPrompt then
      ["## General Instructions", generalPrompt.getD "", ""] else []
  let s2 := if jsTruthyS componentPrompt then
      ["## Specific Instructions for " ++ component, componentPrompt.getD "", ""] else []
  if (s1 ++ s2).length = 0 then
    "Regenerate the " ++ component ++ " based on the current entity content."
  else String.intercalate "\n" (s1 ++ s2)

/-- `PromptBuilder.buildCorrectionPrompt` (src/prompts.ts:193-220). -/
def buildCorrectionPrompt (corrections : List Correction) : String :=
  if corrections.length = 0 then ""
  else
    let s2 := (corrections.map (fun cr =>
      let src := if jsTruthyS cr.sourceFile then " in " ++ cr.sourceFile.getD "" else ""
      ["- \"" ++ cr.original ++ "\" was corrected to \"" ++ cr.corrected ++ "\"" ++ src]
        ++ (if jsTruthyS cr.context then ["  Context: " ++ cr.context.getD ""] else []))).flatten
    String.intercalate "\n" (["## Corrections Applied", "",
      "The following corrections were made to the source content:", ""] ++ s2 ++ ["",
      "Update the metadata and description to reflect these corrections. "
        ++ "Previous content may have contained errors based on the incorrect text."])

/-! ## Data model and error taxonomy (src/types.ts) -/

inductive EditMode where
  | aiPrompt
  | manualWithReview
  | manualOnly
deriving DecidableEq

structure Entity where
  pi : String
  ver : Nat
  ts : String
  manifest_cid : String
  components : List (String × String)
  children_pi : List String
  parent_pi : Option String
  note : Option String
deriving DecidableEq

structure EntityUpdate where
  expect_tip : String
  components : List (String × String)
  components_remove : Option (List String)
  note : String
deriving DecidableEq

structure EntityVersion where
  pi : String
  tip : String
  ver : Nat
deriving DecidableEq

structure CustomPrompts where
  general : Option String
  pinax : Option String
  description : Option String
  cheimarros : Option String
  reorganization : Option String
deriving DecidableEq

structure ReprocessRequest where
  pi : String
  phases : List String
  cascade : Bool
  stop_at_pi : Option String
  custom_prompts : Option CustomPrompts
  custom_note : Option String
deriving DecidableEq

structure ReprocessResult where
  batch_id : String
  entities_queued : Nat
  entity_pis : List String
  status_url : String
deriving DecidableEq

structure ReprocessProgress where
  directories_total : Nat
  directories_pinax_complete : Nat
  directories_cheimarros_complete : Nat
  directories_description_complete : Nat
deriving DecidableEq

structure ReprocessStatus where
  batch_id : String
  status : String
  progress : ReprocessProgress
  root_pi : Option String
  error : Option String
  started_at : Option String
  completed_at : Option String
deriving DecidableEq

structure EditScope where
  components : List String
  cascade : Bool
  stopAtPi : Option String
deriving DecidableEq

structure SaveResult where
  pi : String
  newVersion : Nat
  newTip : String
deriving DecidableEq

structure EditResult where
  saved : Option SaveResult
  reprocess : Option ReprocessResult
deriving DecidableEq

structure EditStatus where
  phase : String
  saveComplete : Bool
  reprocessStatus : Option ReprocessStatus
  error : Option String
deriving DecidableEq

/-- The SDK's thrown values: the `ArkeEditError` taxonomy of src/types.ts
(messages elided, codes and payloads kept) plus `jsError` for raw `Error`
objects rethrown untouched (e.g. network failures surfaced by
`fetchWithRetry`). -/
inductive ArkeError where
  | entityNotFound (pi : String)
  | casConflict (pi expectedTip actualTip : String)
  | arkeEdit (code : String) (status : Option Nat)
  | reprocessErr (message : String)
  | validation (message : String)
  | jsError (message : String)
deriving DecidableEq

deriving instance DecidableEq for Except

/-- Observable remote operations (requests issued and sleeps performed). -/
inductive NetOp where
  | getEntity (pi : String)
  | getContent (cid : String)
  | upload (filename : String)
  | update (pi : String) (u : EntityUpdate)
  | reprocess (req : ReprocessRequest)
  | poll (url : String)
  | sleep (ms : Nat)
deriving DecidableEq

/-- Outcome of one `fetch` attempt against the status endpoint: an HTTP
response with a status code and (JSON) body, or a network-level failure. -/
inductive FetchOutcome where
  | resp (status : Nat) (body : ReprocessStatus)
  | netFail (msg : String)
deriving DecidableEq

/-- `response.ok`: status in the 200-299 range. -/
def httpOk (s : Nat) : Bool := 200 ≤ s && s < 300

/-- Response oracle for the entity store and reprocess-trigger endpoints. -/
structure NetModel where
  getEntityStatus : String → Nat
  getEntityBody : String → Entity
  uploadStatus : String → String → Nat
  uploadCid : String → String → String
  updateStatus : String → EntityUpdate → Nat
  updateBody : String → EntityUpdate → EntityVersion
  reprocessStatus : ReprocessRequest → Nat
  reprocessBody : ReprocessRequest → ReprocessResult
  reprocessErrMsg : ReprocessRequest → Option String

/-! ## Remote client (src/client.ts) -/

/-- `ArkeClient.getEntity` (src/client.ts): 404 → `EntityNotFoundError`,
other non-ok → `FETCH_ERROR`. -/
def getEntityM (net : NetModel) (pi : String) :
    Except ArkeError Entity × List NetOp :=
  let s := net.getEntityStatus pi
  (if s = 404 then .error (.entityNotFound pi)
   else if ¬ httpOk s then .error (.arkeEdit "FETCH_ERROR" (some s))
   else .ok (net.getEntityBody pi), [.getEntity pi])

/-- `ArkeClient.uploadContent`. -/
def uploadContentM (net : NetModel) (content filename : String) :
    Except ArkeError String × List NetOp :=
  let s := net.uploadStatus content filename
  (if ¬ httpOk s then .error (.arkeEdit "UPLOAD_ERROR" (some s))
   else .ok (net.uploadCid content filename), [.upload filename])

/-- `ArkeClient.updateEntity` (src/client.ts:885-916): on HTTP 409 the
client fetches the entity again to learn the current tip and throws
`CASConflictError`; a failure of that follow-up fetch propagates instead. -/
def updateEntityM (net : NetModel) (pi : String) (u : EntityUpdate) :
    Except ArkeError EntityVersion × List NetOp :=
  let s := net.updateStatus pi u
  if s = 409 then
    match getEntityM net pi with
    | (.error e, t) => (.error e, .update pi u :: t)
    | (.ok entity, t) =>
      (.error (.casConflict pi u.expect_tip entity.manifest_cid), .update pi u :: t)
  else if ¬ httpOk s then (.error (.arkeEdit "UPDATE_ERROR" (some s)), [.update pi u])
  else (.ok (net.updateBody pi u), [.update pi u])

/-- `ArkeClient.reprocess`: non-ok → `ReprocessError` with the body's
message when truthy, else a fallback. -/
def reprocessM (net : NetModel) (req : ReprocessRequest) :
    Except ArkeError ReprocessResult × List NetOp :=
  let s := net.reprocessStatus req
  (if ¬ httpOk s then
    .error (.reprocessErr (if jsTruthyS (net.reprocessErrMsg req) then
      (net.reprocessErrMsg req).getD "" else "Reprocess failed: " ++ toString s))
   else .ok (net.reprocessBody req), [.reprocess req])

structure RetryOptions where
  maxRetries : Nat
  initialDelayMs : Nat
  maxDelayMs : Nat
  backoffMultiplier : Nat
deriving DecidableEq

/-- `DEFAULT_RETRY_OPTIONS` (src/client.ts:730-735). -/
def defaultRetryOptions : RetryOptions :=
  { maxRetries := 5, initialDelayMs := 2000, maxDelayMs := 30000, backoffMultiplier := 2 }

/-- Loop of `ArkeClient.fetchWithRetry` (src/client.ts:760-792): retries a
5xx response or a network failure while `attempt < maxRetries`, sleeping
`delay` and doubling it (capped); a non-5xx response (or a 5xx on the last
attempt) is returned as-is; exhausted network failures rethrow the last
error.  The fuel equals the remaining loop iterations. -/
def fetchRetryGo (oracle : Nat → FetchOutcome) (url : String) (opts : RetryOptions) :
    Nat → Nat → Nat → Option String → Except String (Nat × ReprocessStatus) × List NetOp
  | 0, _, _, lastError => (.error (lastError.getD "Request failed after retries"), [])
  | fuel+1, attempt, delay, _ =>
    match oracle attempt with
    | .resp status body =>
      if 500 ≤ status ∧ attempt < opts.maxRetries then
        let next := fetchRetryGo oracle url opts fuel (attempt+1)
          (min (delay * opts.backoffMultiplier) opts.maxDelayMs)
          (some ("Server error: " ++ toString status))
        (next.1, .poll url :: .sleep delay :: next.2)
      else (.ok (status, body), [.poll url])
    | .netFail msg =>
      if attempt < opts.maxRetries then
        let next := fetchRetryGo oracle url opts fuel (attempt+1)
          (min (delay * opts.backoffMultiplier) opts.maxDelayMs) (some msg)
        (next.1, .poll url :: .sleep delay :: next.2)
      else
        let next := fetchRetryGo oracle url opts fuel (attempt+1) delay (some msg)
        (next.1, .poll url :: next.2)

/-- `ArkeClient.fetchWithRetry`. -/
def fetchWithRetry (oracle : Nat → FetchOutcome) (url : String) (opts : RetryOptions) :
    Except String (Nat × ReprocessStatus) × List NetOp :=
  fetchRetryGo oracle url opts (opts.maxRetries + 1) 0 opts.initialDelayMs none

/-- `ArkeClient.getReprocessStatus` (src/client.ts:957-981): first-poll
calls use a 3000ms initial delay; the optional status-URL transform is
applied before fetching; a non-ok final response raises `STATUS_ERROR`. -/
def getReprocessStatusM (oracle : Nat → FetchOutcome)
    (transform : Option (String → String)) (statusUrl : String) (isFirstPoll : Bool) :
    Except ArkeError ReprocessStatus × List NetOp :=
  let opts := if isFirstPoll then { defaultRetryOptions with initialDelayMs := 3000 }
    else defaultRetryOptions
  let fetchUrl := match transform with
    | some f => f statusUrl
    | none => statusUrl
  match fetchWithRetry oracle fetchUrl opts with
  | (.error msg, tr) => (.error (.jsError msg), tr)
  | (.ok (status, body), tr) =>
    (if ¬ httpOk status then .error (.arkeEdit "STATUS_ERROR" (some status))
     else .ok body, tr)

/-! ## Edit session (src/session.ts) -/

/-- Update a string-keyed record: overwrite in place or append. -/
def setAssoc {α : Type} : List (String × α) → String → α → List (String × α)
  | [], k, v => [(k, v)]
  | (k', v') :: rest, k, v =>
    if k' = k then (k, v) :: rest else (k', v') :: setAssoc rest k v

/-- `delete record[key]`. -/
def removeAssoc {α : Type} : List (String × α) → String → List (String × α)
  | [], _ => []
  | (k', v') :: rest, k => if k' = k then rest else (k', v') :: removeAssoc rest k

/-- `Partial<EditScope>` as passed to `setScope`. -/
structure ScopePatch where
  components : Option (List String)
  cascade : Option Bool
  stopAtPi : Option (Option String)
deriving DecidableEq

/-- `{ ...this.scope, ...scope }`. -/
def applyScopePatch (s : EditScope) (p : ScopePatch) : EditScope :=
  { components := p.components.getD s.components,
    cascade := p.cascade.getD s.cascade,
    stopAtPi := p.stopAtPi.getD s.stopAtPi }

/-- The mutable state of an `EditSession` (src/session.ts:237-266). -/
structure SessionState where
  pi : String
  mode : EditMode
  aiReviewEnabled : Bool
  entity : Option Entity
  loadedComponents : List (String × String)
  prompts : List (String × String)
  editedContent : List (String × String)
  corrections : List Correction
  scope : EditScope
  submitting : Bool
  result : Option EditResult
  statusUrl : Option String
deriving DecidableEq

/-- `EditSession.setPrompt` (src/session.ts:341-346): rejected only in
manual-only mode. -/
def setPrompt (st : SessionState) (target prompt : String) :
    Except ArkeError SessionState :=
  if st.mode = EditMode.manualOnly then
    .error (.validation "Cannot set prompts in manual-only mode")
  else .ok { st with prompts := setAssoc st.prompts target prompt }

/-- `EditSession.clearPrompt`. -/
def clearPrompt (st : SessionState) (target : String) : Except ArkeError SessionState :=
  .ok { st with prompts := removeAssoc st.prompts target }

/-- `EditSession.setContent` (src/session.ts:369-374): rejected only in
ai-prompt mode. -/
def setContent (st : SessionState) (componentName content : String) :
    Except ArkeError SessionState :=
  if st.mode = EditMode.aiPrompt then
    .error (.validation "Cannot set content in ai-prompt mode")
  else .ok { st with editedContent := setAssoc st.editedContent componentName content }

/-- `EditSession.clearContent`. -/
def clearContent (st : SessionState) (componentName : String) :
    Except ArkeError SessionState :=
  .ok { st with editedContent := removeAssoc st.editedContent componentName }

/-- `EditSession.addCorrection` (src/session.ts:393-395): no guard at all. -/
def addCorrection (st : SessionState) (original corrected : String)
    (sourceFile : Option String) : Except ArkeError SessionState :=
  .ok { st with corrections := st.corrections
    ++ [{ original := original, corrected := corrected, sourceFile := sourceFile,
          context := none }] }

/-- `EditSession.clearCorrections`. -/
def clearCorrections (st : SessionState) : Except ArkeError SessionState :=
  .ok { st with corrections := [] }

/-- `EditSession.setScope` (src/session.ts:418-420): no guard at all. -/
def setScope (st : SessionState) (patch : ScopePatch) : Except ArkeError SessionState :=
  .ok { st with scope := applyScopePatch st.scope patch }

/-- `EditSession.getDiff` (src/session.ts:436-447). -/
def getDiff (dl : String → String → List DChange) (st : SessionState) :
    List ComponentDiff :=
  st.editedContent.filterMap (fun p =>
    let original := (st.loadedComponents.lookup p.1).getD ""
    if hasSignificantChanges original p.2 then
      some (createComponentDiff dl p.1 original p.2)
    else none)

/-- `EditSession.previewPrompt` (src/session.ts:452-499). -/
def previewPrompt (dl : String → String → List DChange) (st : SessionState) :
    List (String × String) :=
  match st.entity with
  | none => []
  | some entity =>
    let ctx : EntityContext :=
      { pi := entity.pi, ver := entity.ver, parentPi := entity.parent_pi,
        childrenCount := entity.children_pi.length,
        currentContent := st.loadedComponents }
    st.scope.components.foldl (fun acc component =>
      let prompt :=
        if st.mode = EditMode.aiPrompt then
          buildAIPrompt
            (buildCombinedPrompt (st.prompts.lookup "general")
              (st.prompts.lookup component) component)
            component ctx
            (jsOrS (st.loadedComponents.lookup (component ++ ".json"))
              (st.loadedComponents.lookup (component ++ ".md")))
        else
          buildEditReviewPrompt (getDiff dl st) st.corrections component
            (jsOrS (st.prompts.lookup "general") (st.prompts.lookup component))
      let prompt2 := if st.scope.cascade then
          buildCascadePrompt prompt
            { path := [entity.pi, (jsOrS entity.parent_pi (some "root")).getD ""].filter
                (fun x => x ≠ ""),
              depth := 0, stopAtPi := st.scope.stopAtPi }
        else prompt
      setAssoc acc component prompt2) []

/-- `EditSession.buildCustomPrompts` (src/session.ts:674-707): ai-prompt
mode passes the user's prompts through verbatim; manual modes synthesize a
`general` prompt from diff context, corrections and the general
instruction. -/
def buildCustomPrompts (dl : String → String → List DChange) (st : SessionState) :
    CustomPrompts :=
  let truthyOpt := fun (o : Option String) => if jsTruthyS o then o else none
  if st.mode = EditMode.aiPrompt then
    { general := truthyOpt (st.prompts.lookup "general"),
      pinax := truthyOpt (st.prompts.lookup "pinax"),
      description := truthyOpt (st.prompts.lookup "description"),
      cheimarros := truthyOpt (st.prompts.lookup "cheimarros"),
      reorganization := none }
  else
    let diffs := getDiff dl st
    let general :=
      if diffs.length > 0 ∨ st.corrections.length > 0 then
        let basePrompt := String.intercalate "\n\n"
          (([formatComponentDiffsForPrompt diffs, buildCorrectionPrompt st.corrections,
             (st.prompts.lookup "general").getD ""]).filter (fun x => x ≠ ""))
        if basePrompt ≠ "" then some basePrompt else none
      else none
    { general := general,
      pinax := truthyOpt (st.prompts.lookup "pinax"),
      description := truthyOpt (st.prompts.lookup "description"),
      cheimarros := truthyOpt (st.prompts.lookup "cheimarros"),
      reorganization := none }

structure SubmitOutcome where
  result : Except ArkeError EditResult
  state : SessionState
  trace : List NetOp
deriving DecidableEq

/-- Phase-1 upload loop of `EditSession.submit` (src/session.ts:549-555):
upload every significantly edited component, collecting name → CID. -/
def uploadEdits (net : NetModel) (loaded : List (String × String)) :
    List (String × String) → Except ArkeError (List (String × String)) × List NetOp
  | [] => (.ok [], [])
  | (name, content) :: rest =>
    if hasSignificantChanges ((loaded.lookup name).getD "") content then
      match uploadContentM net content name with
      | (.error e, t) => (.error e, t)
      | (.ok cid, t) =>
        match uploadEdits net loaded rest with
        | (.error e, t') => (.error e, t ++ t')
        | (.ok updates, t') => (.ok ((name, cid) :: updates), t ++ t')
    else uploadEdits net loaded rest

/-- Phase 2 of `EditSession.submit` (src/session.ts:575-591): trigger
reprocessing when the scope names at least one component. -/
def submitPhase2 (net : NetModel) (dl : String → String → List DChange)
    (st : SessionState) (tr : List NetOp) : SubmitOutcome :=
  if st.scope.components.length > 0 then
    let req : ReprocessRequest :=
      { pi := st.pi, phases := st.scope.components, cascade := st.scope.cascade,
        stop_at_pi := st.scope.stopAtPi,
        custom_prompts := some (buildCustomPrompts dl st), custom_note := none }
    match reprocessM net req with
    | (.error e, t) => { result := .error e, state := st, trace := tr ++ t }
    | (.ok rr, t) =>
      let result' := { st.result.getD { saved := none, reprocess := none }
        with reprocess := some rr }
      { result := .ok result',
        state := { st with result := some result', statusUrl := some rr.status_url },
        trace := tr ++ t }
  else { result := .ok (st.result.getD { saved := none, reprocess := none }),
         state := st, trace := tr }

/-- `EditSession.submit` (src/session.ts:529-597): the two-phase commit.
The `finally` clause resets the submitting flag, so the returned state has
it false on every path. -/
def submit (net : NetModel) (dl : String → String → List DChange)
    (st : SessionState) (note : String) : SubmitOutcome :=
  if st.submitting then
    { result := .error (.validation "Submit already in progress"), state := st,
      trace := [] }
  else
    match st.entity with
    | none =>
      { result := .error (.validation "Session not loaded. Call load() first."),
        state := st, trace := [] }
    | some entity =>
      let st0 := { st with result := some { saved := none, reprocess := none } }
      if (getDiff dl st).any (fun d => d.hasChanges) then
        match uploadEdits net st.loadedComponents st.editedContent with
        | (.error e, t) => { result := .error e, state := st0, trace := t }
        | (.ok componentUpdates, t) =>
          let u : EntityUpdate :=
            { expect_tip := entity.manifest_cid, components := componentUpdates,
              components_remove := none, note := note }
          match updateEntityM net st.pi u with
          | (.error e, t2) => { result := .error e, state := st0, trace := t ++ t2 }
          | (.ok version, t2) =>
            let saved : SaveResult :=
              { pi := version.pi, newVersion := version.ver, newTip := version.tip }
            let st1 := { st0 with
              entity := some { entity with manifest_cid := version.tip, ver := version.ver },
              result := some { saved := some saved, reprocess := none } }
            submitPhase2 net dl st1 (t ++ t2)
      else submitPhase2 net dl st0 []

structure PollOpts where
  intervalMs : Nat
  timeoutMs : Nat
deriving DecidableEq

/-- `DEFAULT_POLL_OPTIONS` (src/session.ts:232-235). -/
def defaultPollOpts : PollOpts := { intervalMs := 2000, timeoutMs := 300000 }

structure WaitOutcome where
  result : Except ArkeError EditStatus
  observed : List EditStatus
  trace : List NetOp
deriving DecidableEq

/-- Poll loop of `EditSession.waitForCompletion` (src/session.ts:612-647).
`observed` collects the statuses handed to the progress callback; elapsed
time is idealized as the sum of the interval sleeps performed so far. -/
def waitLoop (oracle : Nat → Nat → FetchOutcome) (transform : Option (String → String))
    (url : String) (opts : PollOpts) :
    Nat → Nat → Nat → Bool → WaitOutcome
  | 0, _, _, _ => { result := .error (.jsError "poll fuel exhausted"), observed := [],
                    trace := [] }
  | fuel+1, k, elapsed, isFirstPoll =>
    match getReprocessStatusM (oracle k) transform url isFirstPoll with
    | (.error e, tr) => { result := .error e, observed := [], trace := tr }
    | (.ok status, tr) =>
      let es : EditStatus :=
        { phase := if status.status = "DONE" then "complete"
            else if status.status = "ERROR" then "error" else "reprocessing",
          saveComplete := true, reprocessStatus := some status, error := status.error }
      if status.status = "DONE" ∨ status.status = "ERROR" then
        { result := .ok es, observed := [es], trace := tr }
      else if elapsed > opts.timeoutMs then
        let ts : EditStatus :=
          { phase := "error", saveComplete := true,
            reprocessStatus := some status,
            error := some "Timeout waiting for reprocessing to complete" }
        { result := .ok ts, observed := [es], trace := tr }
      else
        let next := waitLoop oracle transform url opts fuel (k+1)
          (elapsed + opts.intervalMs) false
        { result := next.result, observed := es :: next.observed,
          trace := tr ++ NetOp.sleep opts.intervalMs :: next.trace }

/-- `EditSession.waitForCompletion` (src/session.ts:602-647): with no
retained status URL it returns an already-complete status immediately. -/
def waitForCompletion (oracle : Nat → Nat → FetchOutcome)
    (transform : Option (String → String)) (st : SessionState) (opts : PollOpts)
    (fuel : Nat) : WaitOutcome :=
  match st.statusUrl with
  | none =>
    let done : EditStatus :=
      { phase := "complete", saveComplete := true,
        reprocessStatus := none, error := none }
    { result := .ok done, observed := [], trace := [] }
  | some url => waitLoop oracle transform url opts fuel 0 0 true

/-! ## JavaScript heap semantics for the read accessors

`getComponents`, `getPrompts`, `getEditedContent`, `getCorrections` and
`getScope` (src/session.ts:330-332, 351-353, 379-381, 400-402, 425-427)
return `{ ...record }` / `[ ...array ]` one-level copies.  To reason about
aliasing we give a small JS-style heap: strings and booleans are immutable
values, records and arrays are heap objects reached through references. -/

inductive JVal where
  | str (s : String)
  | bool (b : Bool)
  | ref (n : Nat)
deriving DecidableEq

inductive JObj where
  | record (fields : List (String × JVal))
  | array (items : List JVal)
deriving DecidableEq

abbrev Heap := List JObj

def hGet (h : Heap) (r : Nat) : Option JObj := h[r]?

def hSet (h : Heap) (r : Nat) (o : JObj) : Heap := h.set r o

def hAlloc (h : Heap) (o : JObj) : Heap × Nat := (h ++ [o], h.length)

/-- `{ ...obj }`: allocate a fresh record with the same top-level fields
(nested references are copied as references). -/
def spreadRec (h : Heap) (r : Nat) : Heap × Nat :=
  match hGet h r with
  | some (.record fields) => hAlloc h (.record fields)
  | _ => hAlloc h (.record [])

/-- `[ ...array ]`: allocate a fresh array with the same elements. -/
def spreadArr (h : Heap) (r : Nat) : Heap × Nat :=
  match hGet h r with
  | some (.array items) => hAlloc h (.array items)
  | _ => hAlloc h (.array [])

/-- Read `obj[k]`. -/
def recGetField (h : Heap) (r : Nat) (k : String) : Option JVal :=
  match hGet h r with
  | some (.record fs) => fs.lookup k
  | _ => none

/-- Caller-side mutation `obj[k] = v`. -/
def recSetField (h : Heap) (r : Nat) (k : String) (v : JVal) : Heap :=
  match hGet h r with
  | some (.record fs) => hSet h r (.record (setAssoc fs k v))
  | _ => h

/-- Caller-side mutation `arr.push(v)`. -/
def arrPush (h : Heap) (r : Nat) (v : JVal) : Heap :=
  match hGet h r with
  | some (.array xs) => hSet h r (.array (xs ++ [v]))
  | _ => h

/-- Deep materialization of a value (the observable tree a caller can read
through a reference); fuel bounds the depth. -/
inductive JTree where
  | str (s : String)
  | bool (b : Bool)
  | undefinedV
  | record (fields : List (String × JTree))
  | array (items : List JTree)

def matVal : Nat → Heap → JVal → JTree
  | 0, _, _ => .undefinedV
  | fuel+1, h, v =>
    match v with
    | .str s => .str s
    | .bool b => .bool b
    | .ref r =>
      match hGet h r with
      | some (.record fs) => .record (fs.map (fun p => (p.1, matVal fuel h p.2)))
      | some (.array xs) => .array (xs.map (matVal fuel h))
      | none => .undefinedV

/-- The heap-resident part of a session: references to the five objects the
read accessors copy. -/
structure HSession where
  loadedComponentsRef : Nat
  promptsRef : Nat
  editedContentRef : Nat
  correctionsRef : Nat
  scopeRef : Nat
deriving DecidableEq

/-- `getComponents(): return { ...this.loadedComponents }`. -/
def getComponentsH (h : Heap) (s : HSession) : Heap × Nat :=
  spreadRec h s.loadedComponentsRef

/-- `getPrompts(): return { ...this.prompts }`. -/
def getPromptsH (h : Heap) (s : HSession) : Heap × Nat :=
  spreadRec h s.promptsRef

/-- `getEditedContent(): return { ...this.editedContent }`. -/
def getEditedContentH (h : Heap) (s : HSession) : Heap × Nat :=
  spreadRec h s.editedContentRef

/-- `getCorrections(): return [ ...this.corrections ]`. -/
def getCorrectionsH (h : Heap) (s : HSession) : Heap × Nat :=
  spreadArr h s.correctionsRef

/-- `getScope(): return { ...this.scope }`. -/
def getScopeH (h : Heap) (s : HSession) : Heap × Nat :=
  spreadRec h s.scopeRef

/-- A record is flat when no field holds a reference. -/
def flatFields : List (String × JVal) → Bool
  | [] => true
  | (_, .ref _) :: _ => false
  | _ :: rest => flatFields rest

/-! ## Claim theorems -/

theorem extractCorrectionsGo_nil_of_noPair (l : List DChange) (src : Option String)
    (h : noAdjacentPair l = true) : extractCorrectionsGo l src = [] := by
  induction l with
  | nil => rfl
  | cons c cs ih =>
    cases cs with
    | nil => rfl
    | cons next rest =>
      simp only [noAdjacentPair, Bool.and_eq_true, Bool.not_eq_true'] at h
      have hcond : ¬ (c.removed = true ∧ next.added = true) := by
        intro hx
        rw [hx.1, hx.2] at h
        simpa using h.1
      simp only [extractCorrectionsGo, if_neg hcond]
      exact ih (by
        simpa only [noAdjacentPair] using h.2)

/-- C6: `hasSignificantChanges(a, b)` is false exactly when `a` and `b` are
identical after collapsing every whitespace run to a single space and
trimming both ends, and in particular it is false whenever `a` and `b`
have the same whitespace-separated tokens (e.g. differ only in newlines or
indentation). -/
theorem hasSignificantChanges_spec (a b : String) :
    (hasSignificantChanges a b = false ↔ normalizeWs a = normalizeWs b) ∧
    (wsTokens a.data = wsTokens b.data → hasSignificantChanges a b = false) := by
  have hiff : hasSignificantChanges a b = false ↔ normalizeWs a = normalizeWs b := by
    unfold hasSignificantChanges
    rw [bne_eq_false_iff_eq]
  refine ⟨hiff, fun htok => hiff.mpr ?_⟩
  unfold normalizeWs
  rw [normalize_eq_joinTokens, normalize_eq_joinTokens, htok]

/-- Witness for C6: strings differing only in newlines and indentation are
not significant changes. -/
theorem hasSignificantChanges_spec_witness :
    hasSignificantChanges "Adam\n  Tooze wrote" "Adam Tooze\twrote" = false :=
  (hasSignificantChanges_spec "Adam\n  Tooze wrote" "Adam Tooze\twrote").2 (by decide)

/-- C7: `extractCorrections` scans the word-level diff left to right; a
`removed` record immediately followed by an `added` record is consumed as a
pair (advancing by two), emitting exactly one correction
`{original := removed, corrected := added, sourceFile := sourceLabel}` when
the trimmed texts are both nonempty and different; any other record
advances the scan by one; with no adjacent delete+add pair the result is
empty. -/
theorem extractCorrections_spec (wd : String → String → List DChange)
    (a b : String) (src : Option String) :
    (noAdjacentPair (wd a b) = true → extractCorrections wd a b src = []) ∧
    (∀ c next rest, c.removed = true → next.added = true →
      jsTrim c.value ≠ "" → jsTrim next.value ≠ "" → jsTrim c.value ≠ jsTrim next.value →
      extractCorrectionsGo (c :: next :: rest) src
        = { original := jsTrim c.value, corrected := jsTrim next.value,
            sourceFile := src, context := none } :: extractCorrectionsGo rest src) ∧
    (∀ c next rest, c.removed = true → next.added = true →
      ¬ (jsTrim c.value ≠ "" ∧ jsTrim next.value ≠ "" ∧ jsTrim c.value ≠ jsTrim next.value) →
      extractCorrectionsGo (c :: next :: rest) src = extractCorrectionsGo rest src) ∧
    (∀ c next rest, ¬ (c.removed = true ∧ next.added = true) →
      extractCorrectionsGo (c :: next :: rest) src = extractCorrectionsGo (next :: rest) src) ∧
    (∀ c, extractCorrectionsGo [c] src = []) := by
  refine ⟨fun h => extractCorrectionsGo_nil_of_noPair _ _ h, ?_, ?_, ?_, fun c => rfl⟩
  · intro c next rest hr ha h1 h2 h3
    have hAnd : c.removed = true ∧ next.added = true := ⟨hr, ha⟩
    have hAnd2 : jsTrim c.value ≠ "" ∧ jsTrim next.value ≠ ""
        ∧ jsTrim c.value ≠ jsTrim next.value := ⟨h1, h2, h3⟩
    simp only [extractCorrectionsGo, if_pos hAnd, if_pos hAnd2, List.singleton_append]
  · intro c next rest hr ha hng
    have hAnd : c.removed = true ∧ next.added = true := ⟨hr, ha⟩
    simp only [extractCorrectionsGo, if_pos hAnd, if_neg hng, List.nil_append]
  · intro c next rest hcond
    simp only [extractCorrectionsGo, if_neg hcond]

/-- Witness for C7, on the spec's "Adam Tooze" example: the word diff of
`"Adam Tooze"` vs `"Professor Adam Tooze"` has an added run and an
unchanged run, no adjacent delete+add pair, so no corrections pairing
unrelated tokens are extracted. -/
theorem extractCorrections_spec_witness :
    extractCorrections
      (fun _ _ => [{ added := true, removed := false, value := "Professor " },
                   { added := false, removed := false, value := "Adam Tooze" }])
      "Adam Tooze" "Professor Adam Tooze" (some "description.md") = [] :=
  (extractCorrections_spec
    (fun _ _ => [{ added := true, removed := false, value := "Professor " },
                 { added := false, removed := false, value := "Adam Tooze" }])
    "Adam Tooze" "Professor Adam Tooze" (some "description.md")).1 (by decide)

/-! ### Retry-loop step lemmas -/

theorem fetchRetryGo_step_5xx (oracle : Nat → FetchOutcome) (url : String)
    (opts : RetryOptions) (fuel attempt delay : Nat) (le : Option String)
    (st : Nat) (bd : ReprocessStatus) (hor : oracle attempt = .resp st bd)
    (h5 : 500 ≤ st) (hlt : attempt < opts.maxRetries) :
    fetchRetryGo oracle url opts (fuel+1) attempt delay le
      = ((fetchRetryGo oracle url opts fuel (attempt+1)
            (min (delay * opts.backoffMultiplier) opts.maxDelayMs)
            (some ("Server error: " ++ toString st))).1,
         .poll url :: .sleep delay ::
           (fetchRetryGo oracle url opts fuel (attempt+1)
            (min (delay * opts.backoffMultiplier) opts.maxDelayMs)
            (some ("Server error: " ++ toString st))).2) := by
  have hAnd : 500 ≤ st ∧ attempt < opts.maxRetries := ⟨h5, hlt⟩
  simp only [fetchRetryGo, hor, if_pos hAnd]

theorem fetchRetryGo_step_return (oracle : Nat → FetchOutcome) (url : String)
    (opts : RetryOptions) (fuel attempt delay : Nat) (le : Option String)
    (st : Nat) (bd : ReprocessStatus) (hor : oracle attempt = .resp st bd)
    (hcond : ¬ (500 ≤ st ∧ attempt < opts.maxRetries)) :
    fetchRetryGo oracle url opts (fuel+1) attempt delay le = (.ok (st, bd), [.poll url]) := by
  simp only [fetchRetryGo, hor, if_neg hcond]

theorem fetchRetryGo_step_netFail (oracle : Nat → FetchOutcome) (url : String)
    (opts : RetryOptions) (fuel attempt delay : Nat) (le : Option String)
    (msg : String) (hor : oracle attempt = .netFail msg)
    (hlt : attempt < opts.maxRetries) :
    fetchRetryGo oracle url opts (fuel+1) attempt delay le
      = ((fetchRetryGo oracle url opts fuel (attempt+1)
            (min (delay * opts.backoffMultiplier) opts.maxDelayMs) (some msg)).1,
         .poll url :: .sleep delay ::
           (fetchRetryGo oracle url opts fuel (attempt+1)
            (min (delay * opts.backoffMultiplier) opts.maxDelayMs) (some msg)).2) := by
  simp only [fetchRetryGo, hor, if_pos hlt]

theorem fetchRetryGo_netFail_last (oracle : Nat → FetchOutcome) (url : String)
    (opts : RetryOptions) (attempt delay : Nat) (le : Option String) (msg : String)
    (hor : oracle attempt = .netFail msg) (hge : ¬ attempt < opts.maxRetries) :
    fetchRetryGo oracle url opts (0+1) attempt delay le = (.error msg, [.poll url]) := by
  simp only [fetchRetryGo, hor, if_neg hge, Option.getD]

theorem fetchWithRetry_default (oracle : Nat → FetchOutcome) (url : String) :
    fetchWithRetry oracle url defaultRetryOptions
      = fetchRetryGo oracle url defaultRetryOptions 6 0 2000 none := rfl

theorem fetchWithRetry_first (oracle : Nat → FetchOutcome) (url : String) :
    fetchWithRetry oracle url { defaultRetryOptions with initialDelayMs := 3000 }
      = fetchRetryGo oracle url { defaultRetryOptions with initialDelayMs := 3000 }
          6 0 3000 none := rfl

theorem getReprocessStatus_of_fetch_err (oracle : Nat → FetchOutcome) (url : String)
    (isFirstPoll : Bool) (msg : String) (tr : List NetOp)
    (hfetch : fetchWithRetry oracle url
      (if isFirstPoll then { defaultRetryOptions with initialDelayMs := 3000 }
       else defaultRetryOptions) = (.error msg, tr)) :
    getReprocessStatusM oracle none url isFirstPoll = (.error (.jsError msg), tr) := by
  simp only [getReprocessStatusM]
  rw [hfetch]

theorem getReprocessStatus_of_fetch_ok (oracle : Nat → FetchOutcome) (url : String)
    (isFirstPoll : Bool) (st : Nat) (bd : ReprocessStatus) (tr : List NetOp)
    (hfetch : fetchWithRetry oracle url
      (if isFirstPoll then { defaultRetryOptions with initialDelayMs := 3000 }
       else defaultRetryOptions) = (.ok (st, bd), tr)) :
    getReprocessStatusM oracle none url isFirstPoll
      = (if ¬ httpOk st then .error (.arkeEdit "STATUS_ERROR" (some st)) else .ok bd, tr) := by
  simp only [getReprocessStatusM]
  rw [hfetch]

theorem fetchAll5xx_default (oracle : Nat → FetchOutcome) (s : Nat → Nat)
    (bd : Nat → ReprocessStatus) (url : String)
    (hor : ∀ i, i ≤ 5 → oracle i = .resp (s i) (bd i))
    (h : ∀ i, i ≤ 5 → 500 ≤ s i) :
    fetchWithRetry oracle url defaultRetryOptions
      = (.ok (s 5, bd 5), [.poll url, .sleep 2000, .poll url, .sleep 4000, .poll url,
          .sleep 8000, .poll url, .sleep 16000, .poll url, .sleep 30000, .poll url]) := by
  have e5 : fetchRetryGo oracle url defaultRetryOptions 1 5 30000
      (some ("Server error: " ++ toString (s 4))) = (.ok (s 5, bd 5), [.poll url]) :=
    fetchRetryGo_step_return oracle url defaultRetryOptions 0 5 30000 _ (s 5) (bd 5)
      (hor 5 (by omega)) (by intro hx; exact absurd hx.2 (by decide))
  have e4 : fetchRetryGo oracle url defaultRetryOptions 2 4 30000
      (some ("Server error: " ++ toString (s 3)))
      = ((fetchRetryGo oracle url defaultRetryOptions 1 5 30000
            (some ("Server error: " ++ toString (s 4)))).1,
         .poll url :: .sleep 30000 ::
           (fetchRetryGo oracle url defaultRetryOptions 1 5 30000
            (some ("Server error: " ++ toString (s 4)))).2) :=
    fetchRetryGo_step_5xx oracle url defaultRetryOptions 1 4 30000 _ (s 4) (bd 4)
      (hor 4 (by omega)) (h 4 (by omega)) (by decide)
  rw [e5] at e4
  have e3 : fetchRetryGo oracle url defaultRetryOptions 3 3 16000
      (some ("Server error: " ++ toString (s 2)))
      = ((fetchRetryGo oracle url defaultRetryOptions 2 4 30000
            (some ("Server error: " ++ toString (s 3)))).1,
         .poll url :: .sleep 16000 ::
           (fetchRetryGo oracle url defaultRetryOptions 2 4 30000
            (some ("Server error: " ++ toString (s 3)))).2) :=
    fetchRetryGo_step_5xx oracle url defaultRetryOptions 2 3 16000 _ (s 3) (bd 3)
      (hor 3 (by omega)) (h 3 (by omega)) (by decide)
  rw [e4] at e3
  have e2 : fetchRetryGo oracle url defaultRetryOptions 4 2 8000
      (some ("Server error: " ++ toString (s 1)))
      = ((fetchRetryGo oracle url defaultRetryOptions 3 3 16000
            (some ("Server error: " ++ toString (s 2)))).1,
         .poll url :: .sleep 8000 ::
           (fetchRetryGo oracle url defaultRetryOptions 3 3 16000
            (some ("Server error: " ++ toString (s 2)))).2) :=
    fetchRetryGo_step_5xx oracle url defaultRetryOptions 3 2 8000 _ (s 2) (bd 2)
      (hor 2 (by omega)) (h 2 (by omega)) (by decide)
  rw [e3] at e2
  have e1 : fetchRetryGo oracle url defaultRetryOptions 5 1 4000
      (some ("Server error: " ++ toString (s 0)))
      = ((fetchRetryGo oracle url defaultRetryOptions 4 2 8000
            (some ("Server error: " ++ toString (s 1)))).1,
         .poll url :: .sleep 4000 ::
           (fetchRetryGo oracle url defaultRetryOptions 4 2 8000
            (some ("Server error: " ++ toString (s 1)))).2) :=
    fetchRetryGo_step_5xx oracle url defaultRetryOptions 4 1 4000 _ (s 1) (bd 1)
      (hor 1 (by omega)) (h 1 (by omega)) (by decide)
  rw [e2] at e1
  have e0 : fetchRetryGo oracle url defaultRetryOptions 6 0 2000 none
      = ((fetchRetryGo oracle url defaultRetryOptions 5 1 4000
            (some ("Server error: " ++ toString (s 0)))).1,
         .poll url :: .sleep 2000 ::
           (fetchRetryGo oracle url defaultRetryOptions 5 1 4000
            (some ("Server error: " ++ toString (s 0)))).2) :=
    fetchRetryGo_step_5xx oracle url defaultRetryOptions 5 0 2000 none (s 0) (bd 0)
      (hor 0 (by omega)) (h 0 (by omega)) (by decide)
  rw [e1] at e0
  rw [fetchWithRetry_default]
  exact e0

def firstPollRetryOptions : RetryOptions :=
  { defaultRetryOptions with initialDelayMs := 3000 }

theorem fetchWithRetry_firstPoll (oracle : Nat → FetchOutcome) (url : String) :
    fetchWithRetry oracle url firstPollRetryOptions
      = fetchRetryGo oracle url firstPollRetryOptions 6 0 3000 none := rfl

theorem fetchAll5xx_first (oracle : Nat → FetchOutcome) (s : Nat → Nat)
    (bd : Nat → ReprocessStatus) (url : String)
    (hor : ∀ i, i ≤ 5 → oracle i = .resp (s i) (bd i))
    (h : ∀ i, i ≤ 5 → 500 ≤ s i) :
    fetchWithRetry oracle url firstPollRetryOptions
      = (.ok (s 5, bd 5), [.poll url, .sleep 3000, .poll url, .sleep 6000, .poll url,
          .sleep 12000, .poll url, .sleep 24000, .poll url, .sleep 30000, .poll url]) := by
  have e5 : fetchRetryGo oracle url firstPollRetryOptions 1 5 30000
      (some ("Server error: " ++ toString (s 4))) = (.ok (s 5, bd 5), [.poll url]) :=
    fetchRetryGo_step_return oracle url firstPollRetryOptions 0 5 30000 _ (s 5) (bd 5)
      (hor 5 (by omega)) (by intro hx; exact absurd hx.2 (by decide))
  have e4 : fetchRetryGo oracle url firstPollRetryOptions 2 4 30000
      (some ("Server error: " ++ toString (s 3)))
      = ((fetchRetryGo oracle url firstPollRetryOptions 1 5 30000
            (some ("Server error: " ++ toString (s 4)))).1,
         .poll url :: .sleep 30000 ::
           (fetchRetryGo oracle url firstPollRetryOptions 1 5 30000
            (some ("Server error: " ++ toString (s 4)))).2) :=
    fetchRetryGo_step_5xx oracle url firstPollRetryOptions 1 4 30000 _ (s 4) (bd 4)
      (hor 4 (by omega)) (h 4 (by omega)) (by decide)
  rw [e5] at e4
  have e3 : fetchRetryGo oracle url firstPollRetryOptions 3 3 24000
      (some ("Server error: " ++ toString (s 2)))
      = ((fetchRetryGo oracle url firstPollRetryOptions 2 4 30000
            (some ("Server error: " ++ toString (s 3)))).1,
         .poll url :: .sleep 24000 ::
           (fetchRetryGo oracle url firstPollRetryOptions 2 4 30000
            (some ("Server error: " ++ toString (s 3)))).2) :=
    fetchRetryGo_step_5xx oracle url firstPollRetryOptions 2 3 24000 _ (s 3) (bd 3)
      (hor 3 (by omega)) (h 3 (by omega)) (by decide)
  rw [e4] at e3
  have e2 : fetchRetryGo oracle url firstPollRetryOptions 4 2 12000
      (some ("Server error: " ++ toString (s 1)))
      = ((fetchRetryGo oracle url firstPollRetryOptions 3 3 24000
            (some ("Server error: " ++ toString (s 2)))).1,
         .poll url :: .sleep 12000 ::
           (fetchRetryGo oracle url firstPollRetryOptions 3 3 24000
            (some ("Server error: " ++ toString (s 2)))).2) :=
    fetchRetryGo_step_5xx oracle url firstPollRetryOptions 3 2 12000 _ (s 2) (bd 2)
      (hor 2 (by omega)) (h 2 (by omega)) (by decide)
  rw [e3] at e2
  have e1 : fetchRetryGo oracle url firstPollRetryOptions 5 1 6000
      (some ("Server error: " ++ toString (s 0)))
      = ((fetchRetryGo oracle url firstPollRetryOptions 4 2 12000
            (some ("Server error: " ++ toString (s 1)))).1,
         .poll url :: .sleep 6000 ::
           (fetchRetryGo oracle url firstPollRetryOptions 4 2 12000
            (some ("Server error: " ++ toString (s 1)))).2) :=
    fetchRetryGo_step_5xx oracle url firstPollRetryOptions 4 1 6000 _ (s 1) (bd 1)
      (hor 1 (by omega)) (h 1 (by omega)) (by decide)
  rw [e2] at e1
  have e0 : fetchRetryGo oracle url firstPollRetryOptions 6 0 3000 none
      = ((fetchRetryGo oracle url firstPollRetryOptions 5 1 6000
            (some ("Server error: " ++ toString (s 0)))).1,
         .poll url :: .sleep 3000 ::
           (fetchRetryGo oracle url firstPollRetryOptions 5 1 6000
            (some ("Server error: " ++ toString (s 0)))).2) :=
    fetchRetryGo_step_5xx oracle url firstPollRetryOptions 5 0 3000 none (s 0) (bd 0)
      (hor 0 (by omega)) (h 0 (by omega)) (by decide)
  rw [e1] at e0
  rw [fetchWithRetry_firstPoll]
  exact e0

theorem fetchAllNetFail_default (oracle : Nat → FetchOutcome) (m : Nat → String)
    (url : String) (hor : ∀ i, i ≤ 5 → oracle i = .netFail (m i)) :
    fetchWithRetry oracle url defaultRetryOptions
      = (.error (m 5), [.poll url, .sleep 2000, .poll url, .sleep 4000, .poll url,
          .sleep 8000, .poll url, .sleep 16000, .poll url, .sleep 30000, .poll url]) := by
  have e5 : fetchRetryGo oracle url defaultRetryOptions 1 5 30000 (some (m 4))
      = (.error (m 5), [.poll url]) :=
    fetchRetryGo_netFail_last oracle url defaultRetryOptions 5 30000 _ (m 5)
      (hor 5 (by omega)) (by decide)
  have e4 : fetchRetryGo oracle url defaultRetryOptions 2 4 30000 (some (m 3))
      = ((fetchRetryGo oracle url defaultRetryOptions 1 5 30000 (some (m 4))).1,
         .poll url :: .sleep 30000 ::
           (fetchRetryGo oracle url defaultRetryOptions 1 5 30000 (some (m 4))).2) :=
    fetchRetryGo_step_netFail oracle url defaultRetryOptions 1 4 30000 _ (m 4)
      (hor 4 (by omega)) (by decide)
  rw [e5] at e4
  have e3 : fetchRetryGo oracle url defaultRetryOptions 3 3 16000 (some (m 2))
      = ((fetchRetryGo oracle url defaultRetryOptions 2 4 30000 (some (m 3))).1,
         .poll url :: .sleep 16000 ::
           (fetchRetryGo oracle url defaultRetryOptions 2 4 30000 (some (m 3))).2) :=
    fetchRetryGo_step_netFail oracle url defaultRetryOptions 2 3 16000 _ (m 3)
      (hor 3 (by omega)) (by decide)
  rw [e4] at e3
  have e2 : fetchRetryGo oracle url defaultRetryOptions 4 2 8000 (some (m 1))
      = ((fetchRetryGo oracle url defaultRetryOptions 3 3 16000 (some (m 2))).1,
         .poll url :: .sleep 8000 ::
           (fetchRetryGo oracle url defaultRetryOptions 3 3 16000 (some (m 2))).2) :=
    fetchRetryGo_step_netFail oracle url defaultRetryOptions 3 2 8000 _ (m 2)
      (hor 2 (by omega)) (by decide)
  rw [e3] at e2
  have e1 : fetchRetryGo oracle url defaultRetryOptions 5 1 4000 (some (m 0))
      = ((fetchRetryGo oracle url defaultRetryOptions 4 2 8000 (some (m 1))).1,
         .poll url :: .sleep 4000 ::
           (fetchRetryGo oracle url defaultRetryOptions 4 2 8000 (some (m 1))).2) :=
    fetchRetryGo_step_netFail oracle url defaultRetryOptions 4 1 4000 _ (m 1)
      (hor 1 (by omega)) (by decide)
  rw [e2] at e1
  have e0 : fetchRetryGo oracle url defaultRetryOptions 6 0 2000 none
      = ((fetchRetryGo oracle url defaultRetryOptions 5 1 4000 (some (m 0))).1,
         .poll url :: .sleep 2000 ::
           (fetchRetryGo oracle url defaultRetryOptions 5 1 4000 (some (m 0))).2) :=
    fetchRetryGo_step_netFail oracle url defaultRetryOptions 5 0 2000 none (m 0)
      (hor 0 (by omega)) (by decide)
  rw [e1] at e0
  rw [fetchWithRetry_default]
  exact e0

theorem fetchRecover_default (oracle : Nat → FetchOutcome) (s : Nat → Nat)
    (bd : Nat → ReprocessStatus) (url : String)
    (hor : ∀ i, i ≤ 4 → oracle i = .resp (s i) (bd i))
    (h : ∀ i, i ≤ 3 → 500 ≤ s i) (h4 : s 4 < 500) :
    fetchWithRetry oracle url defaultRetryOptions
      = (.ok (s 4, bd 4), [.poll url, .sleep 2000, .poll url, .sleep 4000, .poll url,
          .sleep 8000, .poll url, .sleep 16000, .poll url]) := by
  have e4 : fetchRetryGo oracle url defaultRetryOptions 2 4 30000
      (some ("Server error: " ++ toString (s 3))) = (.ok (s 4, bd 4), [.poll url]) :=
    fetchRetryGo_step_return oracle url defaultRetryOptions 1 4 30000 _ (s 4) (bd 4)
      (hor 4 (by omega)) (by intro hx; omega)
  have e3 : fetchRetryGo oracle url defaultRetryOptions 3 3 16000
      (some ("Server error: " ++ toString (s 2)))
      = ((fetchRetryGo oracle url defaultRetryOptions 2 4 30000
            (some ("Server error: " ++ toString (s 3)))).1,
         .poll url :: .sleep 16000 ::
           (fetchRetryGo oracle url defaultRetryOptions 2 4 30000
            (some ("Server error: " ++ toString (s 3)))).2) :=
    fetchRetryGo_step_5xx oracle url defaultRetryOptions 2 3 16000 _ (s 3) (bd 3)
      (hor 3 (by omega)) (h 3 (by omega)) (by decide)
  rw [e4] at e3
  have e2 : fetchRetryGo oracle url defaultRetryOptions 4 2 8000
      (some ("Server error: " ++ toString (s 1)))
      = ((fetchRetryGo oracle url defaultRetryOptions 3 3 16000
            (some ("Server error: " ++ toString (s 2)))).1,
         .poll url :: .sleep 8000 ::
           (fetchRetryGo oracle url defaultRetryOptions 3 3 16000
            (some ("Server error: " ++ toString (s 2)))).2) :=
    fetchRetryGo_step_5xx oracle url defaultRetryOptions 3 2 8000 _ (s 2) (bd 2)
      (hor 2 (by omega)) (h 2 (by omega)) (by decide)
  rw [e3] at e2
  have e1 : fetchRetryGo oracle url defaultRetryOptions 5 1 4000
      (some ("Server error: " ++ toString (s 0)))
      = ((fetchRetryGo oracle url defaultRetryOptions 4 2 8000
            (some ("Server error: " ++ toString (s 1)))).1,
         .poll url :: .sleep 4000 ::
           (fetchRetryGo oracle url defaultRetryOptions 4 2 8000
            (some ("Server error: " ++ toString (s 1)))).2) :=
    fetchRetryGo_step_5xx oracle url defaultRetryOptions 4 1 4000 _ (s 1) (bd 1)
      (hor 1 (by omega)) (h 1 (by omega)) (by decide)
  rw [e2] at e1
  have e0 : fetchRetryGo oracle url defaultRetryOptions 6 0 2000 none
      = ((fetchRetryGo oracle url defaultRetryOptions 5 1 4000
            (some ("Server error: " ++ toString (s 0)))).1,
         .poll url :: .sleep 2000 ::
           (fetchRetryGo oracle url defaultRetryOptions 5 1 4000
            (some ("Server error: " ++ toString (s 0)))).2) :=
    fetchRetryGo_step_5xx oracle url defaultRetryOptions 5 0 2000 none (s 0) (bd 0)
      (hor 0 (by omega)) (h 0 (by omega)) (by decide)
  rw [e1] at e0
  rw [fetchWithRetry_default]
  exact e0

/-- C2 (amended): `getReprocessStatus` retries a 5xx response or a
network-level failure up to 5 times with exponential backoff (base 2000ms,
or 3000ms on the first poll, doubling, capped at 30000ms).  When 5xx
retries are exhausted, a `STATUS_ERROR` remote error carrying the final
status is raised; when network-failure retries are exhausted, the last
network error itself is rethrown (not wrapped as a remote error).  A
non-5xx response is never retried: it is returned after a single fetch
with no sleeps, failing iff it is not ok.  A sequence of four 500s
followed by a 200 succeeds after strictly increasing backoff delays. -/
theorem pollStatus_retry_spec :
    (∀ (s : Nat → Nat) (bd : Nat → ReprocessStatus) (url : String),
      (∀ i, i ≤ 5 → 500 ≤ s i) →
      getReprocessStatusM (fun i => .resp (s i) (bd i)) none url false
        = (.error (.arkeEdit "STATUS_ERROR" (some (s 5))),
           [.poll url, .sleep 2000, .poll url, .sleep 4000, .poll url, .sleep 8000,
            .poll url, .sleep 16000, .poll url, .sleep 30000, .poll url])) ∧
    (∀ (s : Nat → Nat) (bd : Nat → ReprocessStatus) (url : String),
      (∀ i, i ≤ 5 → 500 ≤ s i) →
      getReprocessStatusM (fun i => .resp (s i) (bd i)) none url true
        = (.error (.arkeEdit "STATUS_ERROR" (some (s 5))),
           [.poll url, .sleep 3000, .poll url, .sleep 6000, .poll url, .sleep 12000,
            .poll url, .sleep 24000, .poll url, .sleep 30000, .poll url])) ∧
    (∀ (oracle : Nat → FetchOutcome) (url : String) (st : Nat) (bd : ReprocessStatus),
      oracle 0 = .resp st bd → st < 500 →
      getReprocessStatusM oracle none url false
        = (if ¬ httpOk st then .error (.arkeEdit "STATUS_ERROR" (some st)) else .ok bd,
           [.poll url])) ∧
    (∀ (m : Nat → String) (url : String),
      getReprocessStatusM (fun i => .netFail (m i)) none url false
        = (.error (.jsError (m 5)),
           [.poll url, .sleep 2000, .poll url, .sleep 4000, .poll url, .sleep 8000,
            .poll url, .sleep 16000, .poll url, .sleep 30000, .poll url])) ∧
    (∀ (bd : Nat → ReprocessStatus) (url : String),
      getReprocessStatusM
          (fun i => .resp (if i < 4 then 500 else 200) (bd i)) none url false
        = (.ok (bd 4),
           [.poll url, .sleep 2000, .poll url, .sleep 4000, .poll url, .sleep 8000,
            .poll url, .sleep 16000, .poll url])) := by
  refine ⟨?_, ?_, ?_, ?_, ?_⟩
  · intro s bd url h
    have hok : httpOk (s 5) = false := by
      have h5 := h 5 (by omega)
      simp only [httpOk, Bool.and_eq_false_iff, decide_eq_false_iff_not]
      omega
    have geq := getReprocessStatus_of_fetch_ok (fun i => .resp (s i) (bd i)) url false
      (s 5) (bd 5) _
      (fetchAll5xx_default (fun i => .resp (s i) (bd i)) s bd url (fun i _ => rfl) h)
    rw [geq]
    simp [hok]
  · intro s bd url h
    have hok : httpOk (s 5) = false := by
      have h5 := h 5 (by omega)
      simp only [httpOk, Bool.and_eq_false_iff, decide_eq_false_iff_not]
      omega
    have geq := getReprocessStatus_of_fetch_ok (fun i => .resp (s i) (bd i)) url true
      (s 5) (bd 5) _
      (fetchAll5xx_first (fun i => .resp (s i) (bd i)) s bd url (fun i _ => rfl) h)
    rw [geq]
    simp [hok]
  · intro oracle url st bd hor hlt
    have e0 : fetchRetryGo oracle url defaultRetryOptions 6 0 2000 none
        = (.ok (st, bd), [.poll url]) :=
      fetchRetryGo_step_return oracle url defaultRetryOptions 5 0 2000 none st bd hor
        (by intro hx; omega)
    exact getReprocessStatus_of_fetch_ok oracle url false st bd [.poll url]
      (by show fetchWithRetry oracle url defaultRetryOptions = (.ok (st, bd), [.poll url])
          rw [fetchWithRetry_default]
          exact e0)
  · intro m url
    exact getReprocessStatus_of_fetch_err (fun i => .netFail (m i)) url false (m 5) _
      (fetchAllNetFail_default (fun i => .netFail (m i)) m url (fun i _ => rfl))
  · intro bd url
    have geq := getReprocessStatus_of_fetch_ok
      (fun i => .resp (if i < 4 then 500 else 200) (bd i)) url false 200 (bd 4) _
      (fetchRecover_default (fun i => .resp (if i < 4 then 500 else 200) (bd i))
        (fun i => if i < 4 then 500 else 200) bd url (fun i _ => rfl)
        (by intro i hi
            have hlt : i < 4 := by omega
            simp [hlt])
        (by norm_num))
    rw [geq]
    norm_num [httpOk]

/-- Demo status body used by concrete poll scenarios. -/
def demoStatus : ReprocessStatus :=
  { batch_id := "b1", status := "QUEUED",
    progress := { directories_total := 1, directories_pinax_complete := 0,
                  directories_cheimarros_complete := 0,
                  directories_description_complete := 0 },
    root_pi := none, error := none, started_at := none, completed_at := none }

/-- Counterexample to C2 as stated: when every attempt is a network-level
failure, exhausting the retries rethrows the last raw network error — not a
`RemoteError` (`ArkeEditError`) as the claim requires. -/
theorem pollStatus_netfail_cex :
    getReprocessStatusM (fun _ => .netFail "fetch failed: connection reset")
        none "https://x/status" false
      = (.error (.jsError "fetch failed: connection reset"),
         [.poll "https://x/status", .sleep 2000, .poll "https://x/status",
          .sleep 4000, .poll "https://x/status", .sleep 8000,
          .poll "https://x/status", .sleep 16000, .poll "https://x/status",
          .sleep 30000, .poll "https://x/status"])
    ∧ (∀ code stat, ArkeError.jsError "fetch failed: connection reset"
        ≠ ArkeError.arkeEdit code stat) := by
  constructor
  · rfl
  · intro code stat h
    cases h

/-- Witness for C2 (amended): six straight 500 responses exhaust the
retries and surface `STATUS_ERROR` after the capped backoff schedule. -/
theorem pollStatus_retry_spec_witness :
    getReprocessStatusM (fun i => .resp ((fun _ => 500) i) ((fun _ => demoStatus) i))
        none "https://x/status" false
      = (.error (.arkeEdit "STATUS_ERROR" (some 500)),
         [.poll "https://x/status", .sleep 2000, .poll "https://x/status",
          .sleep 4000, .poll "https://x/status", .sleep 8000,
          .poll "https://x/status", .sleep 16000, .poll "https://x/status",
          .sleep 30000, .poll "https://x/status"]) :=
  pollStatus_retry_spec.1 (fun _ => 500) (fun _ => demoStatus) "https://x/status"
    (fun _ _ => Nat.le_refl 500)

theorem getEntityM_404 (net : NetModel) (pi : String)
    (h : net.getEntityStatus pi = 404) :
    getEntityM net pi = (.error (.entityNotFound pi), [.getEntity pi]) := by
  simp [getEntityM, h]

theorem getEntityM_ok (net : NetModel) (pi : String)
    (hok : httpOk (net.getEntityStatus pi) = true) :
    getEntityM net pi = (.ok (net.getEntityBody pi), [.getEntity pi]) := by
  have h404 : ¬ net.getEntityStatus pi = 404 := by
    intro h; rw [h] at hok; simp [httpOk] at hok
  simp [getEntityM, h404, hok]

theorem getEntityM_err (net : NetModel) (pi : String)
    (h404 : ¬ net.getEntityStatus pi = 404)
    (hok : httpOk (net.getEntityStatus pi) = false) :
    getEntityM net pi
      = (.error (.arkeEdit "FETCH_ERROR" (some (net.getEntityStatus pi))),
         [.getEntity pi]) := by
  simp [getEntityM, h404, hok]

theorem updateEntityM_409 (net : NetModel) (pi : String) (u : EntityUpdate)
    (h409 : net.updateStatus pi u = 409) :
    updateEntityM net pi u
      = (match getEntityM net pi with
         | (.error e, t) => (.error e, .update pi u :: t)
         | (.ok entity, t) =>
           (.error (.casConflict pi u.expect_tip entity.manifest_cid),
            .update pi u :: t)) := by
  simp only [updateEntityM, h409, if_true]

/-- C9: on an HTTP 409 from `updateEntity`, the client issues exactly one
follow-up `getEntity` fetch to learn the current tip; if that fetch
succeeds the surfaced error is the `CASConflictError`, and if it fails the
fetch's own error propagates instead (`EntityNotFoundError` on 404, the
generic fetch error otherwise). -/
theorem updateEntity_conflict_fetch_spec (net : NetModel) (pi : String)
    (u : EntityUpdate) (h409 : net.updateStatus pi u = 409) :
    ((updateEntityM net pi u).2 = [.update pi u, .getEntity pi]) ∧
    (net.getEntityStatus pi = 404 →
      (updateEntityM net pi u).1 = .error (.entityNotFound pi)) ∧
    (httpOk (net.getEntityStatus pi) = true →
      (updateEntityM net pi u).1
        = .error (.casConflict pi u.expect_tip (net.getEntityBody pi).manifest_cid)) ∧
    (¬ net.getEntityStatus pi = 404 → httpOk (net.getEntityStatus pi) = false →
      (updateEntityM net pi u).1
        = .error (.arkeEdit "FETCH_ERROR" (some (net.getEntityStatus pi)))) := by
  have h409' := updateEntityM_409 net pi u h409
  by_cases h404 : net.getEntityStatus pi = 404
  · have hE := getEntityM_404 net pi h404
    have hok : httpOk (net.getEntityStatus pi) = false := by rw [h404]; rfl
    refine ⟨?_, ?_, ?_, ?_⟩
    · rw [h409', hE]
    · intro _; rw [h409', hE]
    · intro hok'; rw [hok] at hok'; cases hok'
    · intro h404' _; exact absurd h404 h404'
  · cases hok : httpOk (net.getEntityStatus pi) with
    | true =>
      have hE := getEntityM_ok net pi hok
      refine ⟨?_, ?_, ?_, ?_⟩
      · rw [h409', hE]
      · intro h; exact absurd h h404
      · intro _; rw [h409', hE]
      · intro _ hf; simp at hf
    | false =>
      have hE := getEntityM_err net pi h404 hok
      refine ⟨?_, ?_, ?_, ?_⟩
      · rw [h409', hE]
      · intro h; exact absurd h h404
      · intro hok'; simp at hok'
      · intro _ _; rw [h409', hE]

def demoEntity : Entity :=
  { pi := "p1", ver := 3, ts := "t0", manifest_cid := "T3",
    components := [("description.md", "cid0")], children_pi := [],
    parent_pi := none, note := none }

def demoUpd : EntityUpdate :=
  { expect_tip := "T3", components := [("description.md", "cidX")],
    components_remove := none, note := "n" }

/-- A server where the CAS write 409s and the follow-up entity fetch finds
the entity gone. -/
def demoNet404 : NetModel :=
  { getEntityStatus := fun _ => 404, getEntityBody := fun _ => demoEntity,
    uploadStatus := fun _ _ => 200, uploadCid := fun _ _ => "cidX",
    updateStatus := fun _ _ => 409, updateBody := fun _ _ => ⟨"p1", "T4", 4⟩,
    reprocessStatus := fun _ => 200,
    reprocessBody := fun _ => ⟨"b1", 1, ["p1"], "https://x/status"⟩,
    reprocessErrMsg := fun _ => none }

/-- Witness for C9: with a 409 followed by a 404 on the lookup, the caller
sees `EntityNotFoundError`, after exactly one update and one fetch. -/
theorem updateEntity_conflict_fetch_spec_witness :
    (updateEntityM demoNet404 "p1" demoUpd).1 = .error (.entityNotFound "p1")
      ∧ (updateEntityM demoNet404 "p1" demoUpd).2
          = [.update "p1" demoUpd, .getEntity "p1"] :=
  ⟨(updateEntity_conflict_fetch_spec demoNet404 "p1" demoUpd rfl).2.1 rfl,
   (updateEntity_conflict_fetch_spec demoNet404 "p1" demoUpd rfl).1⟩

/-- C4 (amended): the mode gates hold — `setPrompt` raises a validation
error exactly in manual-only mode and `setContent` exactly in ai-prompt
mode — but configuration setters are not load-gated: `setPrompt`,
`setContent`, `addCorrection` and `setScope` never consult the loaded
entity, so calling them before `load()` succeeds rather than erroring. -/
theorem setter_guards_spec :
    (∀ (st : SessionState) (t p : String), st.mode = EditMode.manualOnly →
      setPrompt st t p = .error (.validation "Cannot set prompts in manual-only mode")) ∧
    (∀ (st : SessionState) (t p : String), ¬ st.mode = EditMode.manualOnly →
      setPrompt st t p = .ok { st with prompts := setAssoc st.prompts t p }) ∧
    (∀ (st : SessionState) (n c : String), st.mode = EditMode.aiPrompt →
      setContent st n c = .error (.validation "Cannot set content in ai-prompt mode")) ∧
    (∀ (st : SessionState) (n c : String), ¬ st.mode = EditMode.aiPrompt →
      setContent st n c
        = .ok { st with editedContent := setAssoc st.editedContent n c }) ∧
    (∀ (st : SessionState) (o c : String) (sf : Option String),
      addCorrection st o c sf
        = .ok { st with corrections := st.corrections ++ [⟨o, c, sf, none⟩] }) ∧
    (∀ (st : SessionState) (patch : ScopePatch),
      setScope st patch = .ok { st with scope := applyScopePatch st.scope patch }) := by
  refine ⟨?_, ?_, ?_, ?_, fun st o c sf => rfl, fun st patch => rfl⟩
  · intro st t p h; simp [setPrompt, h]
  · intro st t p h; simp [setPrompt, h]
  · intro st n c h; simp [setContent, h]
  · intro st n c h; simp [setContent, h]

/-- An unloaded ai-prompt session (`entity = none`, nothing configured). -/
def demoUnloaded : SessionState :=
  { pi := "p1", mode := EditMode.aiPrompt, aiReviewEnabled := true, entity := none,
    loadedComponents := [], prompts := [], editedContent := [], corrections := [],
    scope := ⟨[], false, none⟩, submitting := false, result := none, statusUrl := none }

def demoUnloadedManualOnly : SessionState :=
  { demoUnloaded with mode := EditMode.manualOnly }

/-- Counterexample to C4 as stated: on a session that was never loaded
(`entity = none`), the configuration setters succeed — they are not
"only valid once load() has completed". -/
theorem setter_before_load_cex :
    demoUnloaded.entity = none ∧
    setPrompt demoUnloaded "general" "Fix typos"
      = .ok { demoUnloaded with prompts := [("general", "Fix typos")] } ∧
    setScope demoUnloaded ⟨some ["description"], none, none⟩
      = .ok { demoUnloaded with scope := ⟨["description"], false, none⟩ } ∧
    addCorrection demoUnloaded "teh" "the" none
      = .ok { demoUnloaded with corrections := [⟨"teh", "the", none, none⟩] } :=
  ⟨rfl, rfl, rfl, rfl⟩

/-- Witness for C4 (amended): the two mode gates fire as validation
errors. -/
theorem setter_guards_spec_witness :
    setContent demoUnloaded "description.md" "x"
      = .error (.validation "Cannot set content in ai-prompt mode")
    ∧ setPrompt demoUnloadedManualOnly "general" "x"
      = .error (.validation "Cannot set prompts in manual-only mode") :=
  ⟨setter_guards_spec.2.2.1 demoUnloaded "description.md" "x" rfl,
   setter_guards_spec.1 demoUnloadedManualOnly "general" "x" rfl⟩

/-- C1: when phase-1's `commitUpdate` receives a 409 (and the conflict
lookup succeeds), `submit` surfaces a `CASConflictError` carrying the
original expected tip and the server's current tip; the trace shows exactly
one update request (no auto-retry), and the session's in-memory entity —
its version and tip — is exactly its pre-submit value. -/
theorem submit_conflict_spec (net : NetModel) (dl : String → String → List DChange)
    (st : SessionState) (note : String) (entity : Entity)
    (updates : List (String × String)) (t1 : List NetOp) (u : EntityUpdate)
    (hsub : st.submitting = false)
    (hent : st.entity = some entity)
    (hEdits : (getDiff dl st).any (fun d => d.hasChanges) = true)
    (hup : uploadEdits net st.loadedComponents st.editedContent = (.ok updates, t1))
    (hu : u = { expect_tip := entity.manifest_cid, components := updates,
                components_remove := none, note := note })
    (h409 : net.updateStatus st.pi u = 409)
    (hok : httpOk (net.getEntityStatus st.pi) = true) :
    submit net dl st note
      = { result := .error (.casConflict st.pi entity.manifest_cid
            (net.getEntityBody st.pi).manifest_cid),
          state := { st with result := some { saved := none, reprocess := none } },
          trace := t1 ++ [.update st.pi u, .getEntity st.pi] } ∧
    (submit net dl st note).state.entity = st.entity := by
  have hconflict : updateEntityM net st.pi u
      = (.error (.casConflict st.pi u.expect_tip (net.getEntityBody st.pi).manifest_cid),
         [.update st.pi u, .getEntity st.pi]) := by
    rw [updateEntityM_409 net st.pi u h409, getEntityM_ok net st.pi hok]
  have hmain : submit net dl st note
      = { result := .error (.casConflict st.pi entity.manifest_cid
            (net.getEntityBody st.pi).manifest_cid),
          state := { st with result := some { saved := none, reprocess := none } },
          trace := t1 ++ [.update st.pi u, .getEntity st.pi] } := by
    simp only [submit, hsub, hent, hEdits, if_true, Bool.false_eq_true, if_false, hup]
    rw [← hu, hconflict, hu]
  refine ⟨hmain, ?_⟩
  rw [hmain]

/-- C5: a loaded session with no significant edits and an empty scope
submits successfully with the empty result (no `saved`, no `reprocess`)
and performs zero network operations. -/
theorem submit_noop_spec (net : NetModel) (dl : String → String → List DChange)
    (st : SessionState) (note : String) (entity : Entity)
    (hsub : st.submitting = false)
    (hent : st.entity = some entity)
    (hNoSig : ∀ p ∈ st.editedContent,
      hasSignificantChanges ((st.loadedComponents.lookup p.1).getD "") p.2 = false)
    (hScope : st.scope.components = []) :
    submit net dl st note
      = { result := .ok { saved := none, reprocess := none },
          state := { st with result := some { saved := none, reprocess := none } },
          trace := [] } := by
  have hdiff : getDiff dl st = [] := by
    unfold getDiff
    rw [List.filterMap_eq_nil_iff]
    intro p hp
    simp [hNoSig p hp]
  have hEdits : (getDiff dl st).any (fun d => d.hasChanges) = false := by
    rw [hdiff]; rfl
  simp only [submit, hsub, hent, hEdits, Bool.false_eq_true, if_false]
  simp [submitPhase2, hScope]

/-- C8: a session that never triggered regeneration (no retained status
URL) gets an already-complete status from `waitForCompletion` immediately:
no poll, no sleep, no progress callback, whatever the options and however
the remote would have behaved. -/
theorem waitForCompletion_no_statusUrl_spec (oracle : Nat → Nat → FetchOutcome)
    (transform : Option (String → String)) (st : SessionState) (opts : PollOpts)
    (fuel : Nat) (h : st.statusUrl = none) :
    waitForCompletion oracle transform st opts fuel
      = { result := .ok { phase := "complete", saveComplete := true,
                          reprocessStatus := none, error := none },
          observed := [], trace := [] } := by
  simp only [waitForCompletion, h]

/-- A server whose CAS write always 409s but whose entity fetch succeeds,
reporting tip `T9`. -/
def demoNetConflict : NetModel :=
  { getEntityStatus := fun _ => 200,
    getEntityBody := fun _ => { demoEntity with manifest_cid := "T9", ver := 9 },
    uploadStatus := fun _ _ => 200, uploadCid := fun _ _ => "cidX",
    updateStatus := fun _ _ => 409, updateBody := fun _ _ => ⟨"p1", "T4", 4⟩,
    reprocessStatus := fun _ => 200,
    reprocessBody := fun _ => ⟨"b1", 1, ["p1"], "https://x/status"⟩,
    reprocessErrMsg := fun _ => none }

/-- Line-diff oracle: one addition record whenever the inputs differ. -/
def demoDl : String → String → List DChange :=
  fun a b => if a = b then [] else [{ added := true, removed := false, value := b }]

/-- A loaded manual-mode session with one significantly edited component. -/
def demoStEdited : SessionState :=
  { pi := "p1", mode := EditMode.manualWithReview, aiReviewEnabled := true,
    entity := some demoEntity,
    loadedComponents := [("description.md", "old text")],
    prompts := [], editedContent := [("description.md", "new body text")],
    corrections := [], scope := ⟨[], false, none⟩, submitting := false,
    result := none, statusUrl := none }

def demoUpdConflict : EntityUpdate :=
  { expect_tip := "T3", components := [("description.md", "cidX")],
    components_remove := none, note := "note" }

/-- Witness for C1: the conflicted submit returns the CAS conflict carrying
expected tip `T3` and actual tip `T9`, uploads once, updates once, and
leaves the session's entity (version 3, tip `T3`) untouched. -/
theorem submit_conflict_spec_witness :
    submit demoNetConflict demoDl demoStEdited "note"
      = { result := .error (.casConflict "p1" "T3" "T9"),
          state := { demoStEdited with
            result := some { saved := none, reprocess := none } },
          trace := [.upload "description.md", .update "p1" demoUpdConflict,
            .getEntity "p1"] }
      ∧ (submit demoNetConflict demoDl demoStEdited "note").state.entity
          = demoStEdited.entity :=
  submit_conflict_spec demoNetConflict demoDl demoStEdited "note" demoEntity
    [("description.md", "cidX")] [.upload "description.md"] demoUpdConflict
    rfl rfl (by decide) (by decide) rfl rfl rfl

/-- A loaded session whose only edit is a whitespace reflow, with empty
scope. -/
def demoStNoop : SessionState :=
  { demoStEdited with editedContent := [("description.md", "old\n   text")] }

/-- Witness for C5: the no-op submit returns the empty result with an
empty network trace. -/
theorem submit_noop_spec_witness :
    submit demoNetConflict demoDl demoStNoop "note"
      = { result := .ok { saved := none, reprocess := none },
          state := { demoStNoop with
            result := some { saved := none, reprocess := none } },
          trace := [] } :=
  submit_noop_spec demoNetConflict demoDl demoStNoop "note" demoEntity
    rfl rfl (by decide) rfl

/-- Witness for C8: a session with no status URL completes immediately
with no polls, sleeps or callbacks, whatever the poll options. -/
theorem waitForCompletion_no_statusUrl_spec_witness :
    waitForCompletion (fun _ _ => .netFail "unreachable") none demoUnloaded
        { intervalMs := 1, timeoutMs := 1 } 100
      = { result := .ok { phase := "complete", saveComplete := true,
                          reprocessStatus := none, error := none },
          observed := [], trace := [] } :=
  waitForCompletion_no_statusUrl_spec (fun _ _ => .netFail "unreachable") none
    demoUnloaded { intervalMs := 1, timeoutMs := 1 } 100 rfl

/-- The reprocess request phase 2 issues for a session state. -/
def phase2Request (dl : String → String → List DChange) (st : SessionState) :
    ReprocessRequest :=
  { pi := st.pi, phases := st.scope.components, cascade := st.scope.cascade,
    stop_at_pi := st.scope.stopAtPi, custom_prompts := some (buildCustomPrompts dl st),
    custom_note := none }

theorem submitPhase2_trace (net : NetModel) (dl : String → String → List DChange)
    (st : SessionState) (tr : List NetOp) (hlen : 0 < st.scope.components.length) :
    (submitPhase2 net dl st tr).trace = tr ++ [.reprocess (phase2Request dl st)] := by
  simp only [submitPhase2, if_pos hlen]
  have ht : (reprocessM net (phase2Request dl st)).2
      = [.reprocess (phase2Request dl st)] := rfl
  cases hr : reprocessM net (phase2Request dl st) with
  | mk r t =>
    rw [hr] at ht
    have hgoal : reprocessM net
        { pi := st.pi, phases := st.scope.components, cascade := st.scope.cascade,
          stop_at_pi := st.scope.stopAtPi,
          custom_prompts := some (buildCustomPrompts dl st), custom_note := none }
        = (r, t) := hr
    rw [hgoal]
    cases r with
    | error e => simpa using ht
    | ok rr => simpa using ht

/-- C3 (amended): what `submit` sends to `triggerRegeneration` is
`buildCustomPrompts`, not the `previewPrompt` text.  In ai-prompt mode the
custom-prompts payload carries the user's per-target prompts verbatim
(dropping unset or empty ones), while `previewPrompt` wraps them in an
AI-prompt template with entity context; phase 2's reprocess request always
carries exactly `buildCustomPrompts` for the current state. -/
theorem customPrompts_ai_verbatim (net : NetModel)
    (dl : String → String → List DChange) (st : SessionState) (tr : List NetOp)
    (hmode : st.mode = EditMode.aiPrompt) :
    ((buildCustomPrompts dl st).general
      = if jsTruthyS (st.prompts.lookup "general") then st.prompts.lookup "general"
        else none) ∧
    ((buildCustomPrompts dl st).pinax
      = if jsTruthyS (st.prompts.lookup "pinax") then st.prompts.lookup "pinax"
        else none) ∧
    ((buildCustomPrompts dl st).description
      = if jsTruthyS (st.prompts.lookup "description") then
          st.prompts.lookup "description" else none) ∧
    ((buildCustomPrompts dl st).cheimarros
      = if jsTruthyS (st.prompts.lookup "cheimarros") then
          st.prompts.lookup "cheimarros" else none) ∧
    ((buildCustomPrompts dl st).reorganization = none) ∧
    (0 < st.scope.components.length →
      (submitPhase2 net dl st tr).trace
        = tr ++ [.reprocess (phase2Request dl st)]) :=
  ⟨by simp [buildCustomPrompts, hmode], by simp [buildCustomPrompts, hmode],
   by simp [buildCustomPrompts, hmode], by simp [buildCustomPrompts, hmode],
   by simp [buildCustomPrompts, hmode],
   fun hlen => submitPhase2_trace net dl st tr hlen⟩

/-- An ai-prompt session with one user prompt for `description` and that
component in scope. -/
def demoStC3 : SessionState :=
  { pi := "p1", mode := EditMode.aiPrompt, aiReviewEnabled := true,
    entity := some demoEntity, loadedComponents := [],
    prompts := [("description", "Fix typos")], editedContent := [],
    corrections := [], scope := ⟨["description"], false, none⟩,
    submitting := false, result := none, statusUrl := none }

def demoCpC3 : CustomPrompts :=
  { general := none, pinax := none, description := some "Fix typos",
    cheimarros := none, reorganization := none }

def demoReqC3 : ReprocessRequest :=
  { pi := "p1", phases := ["description"], cascade := false, stop_at_pi := none,
    custom_prompts := some demoCpC3, custom_note := none }

/-- Counterexample to C3 as stated: `submit` sends the verbatim prompt
`"Fix typos"` for `description` (shown by the reprocess request in the
trace), while `previewPrompt` shows a different text (the AI-prompt
template wrapped around it) — the preview is not the payload submit
sends. -/
theorem previewPrompt_ne_submitted_cex :
    (submit demoNetConflict demoDl demoStC3 "note").trace = [.reprocess demoReqC3] ∧
    demoReqC3.custom_prompts = some demoCpC3 ∧
    demoCpC3.description = some "Fix typos" ∧
    (previewPrompt demoDl demoStC3).lookup "description" ≠ some "Fix typos" ∧
    ((previewPrompt demoDl demoStC3).lookup "description").isSome = true := by
  refine ⟨by decide, rfl, rfl, by decide, by decide⟩

/-- Witness for C3 (amended): the verbatim passthrough and the phase-2
request payload at a concrete session. -/
theorem customPrompts_ai_verbatim_witness :
    (buildCustomPrompts demoDl demoStC3).description = some "Fix typos"
    ∧ (submitPhase2 demoNetConflict demoDl demoStC3 []).trace
        = [] ++ [.reprocess (phase2Request demoDl demoStC3)] :=
  ⟨(customPrompts_ai_verbatim demoNetConflict demoDl demoStC3 [] rfl).2.2.1,
   (customPrompts_ai_verbatim demoNetConflict demoDl demoStC3 [] rfl).2.2.2.2.2
     (by decide)⟩

theorem hGet_lt_length (h : Heap) (r : Nat) (o : JObj) (hr : hGet h r = some o) :
    r < h.length := by
  by_contra hge
  push_neg at hge
  rw [hGet, List.getElem?_eq_none hge] at hr
  cases hr

theorem hGet_append_left (h : Heap) (o : JObj) (i : Nat) (hi : i < h.length) :
    hGet (h ++ [o]) i = hGet h i := by
  simp [hGet, List.getElem?_append, hi]

theorem hGet_append_self (h : Heap) (o : JObj) : hGet (h ++ [o]) h.length = some o := by
  simp [hGet]

theorem hGet_set_ne (h : Heap) (r r' : Nat) (o : JObj) (hne : ¬ r' = r) :
    hGet (hSet h r o) r' = hGet h r' := by
  simp [hGet, hSet, List.getElem?_set_ne (fun hx => hne hx.symm)]

theorem spreadRec_eq (h : Heap) (r : Nat) (fs : List (String × JVal))
    (hr : hGet h r = some (.record fs)) :
    spreadRec h r = (h ++ [.record fs], h.length) := by
  simp [spreadRec, hr, hAlloc]

theorem spreadArr_eq (h : Heap) (r : Nat) (xs : List JVal)
    (hr : hGet h r = some (.array xs)) :
    spreadArr h r = (h ++ [.array xs], h.length) := by
  simp [spreadArr, hr, hAlloc]

/-- Mutating the freshly allocated copy never touches an existing object. -/
theorem recSetField_fresh_preserves (h : Heap) (r : Nat) (o : JObj)
    (fs : List (String × JVal)) (k : String) (v : JVal) (hr : hGet h r = some o) :
    hGet (recSetField (h ++ [.record fs]) h.length k v) r = some o := by
  have hrlen : r < h.length := hGet_lt_length h r o hr
  unfold recSetField
  rw [hGet_append_self]
  rw [hGet_set_ne _ _ _ _ (by omega)]
  rw [hGet_append_left h _ r hrlen]
  exact hr

theorem matVal_zero (h : Heap) (v : JVal) : matVal 0 h v = .undefinedV := rfl

theorem matVal_str (fuel : Nat) (h : Heap) (s : String) :
    matVal (fuel+1) h (.str s) = .str s := rfl

theorem matVal_bool (fuel : Nat) (h : Heap) (b : Bool) :
    matVal (fuel+1) h (.bool b) = .bool b := rfl

theorem matVal_ref (fuel : Nat) (h : Heap) (r : Nat) :
    matVal (fuel+1) h (.ref r)
      = (match hGet h r with
         | some (.record fs) => .record (fs.map (fun p => (p.1, matVal fuel h p.2)))
         | some (.array xs) => .array (xs.map (matVal fuel h))
         | none => .undefinedV) := rfl

/-- Flat (reference-free) fields materialize independently of the heap. -/
theorem matFields_flat (fs : List (String × JVal)) (hflat : flatFields fs = true) :
    ∀ (fuel : Nat) (h h' : Heap),
      fs.map (fun p => (p.1, matVal fuel h p.2))
        = fs.map (fun p => (p.1, matVal fuel h' p.2)) := by
  induction fs with
  | nil => intro fuel h h'; rfl
  | cons p rest ih =>
    intro fuel h h'
    cases p with
    | mk k v =>
      cases v with
      | str s =>
        have hrest : flatFields rest = true := by simpa [flatFields] using hflat
        cases fuel with
        | zero => simp [matVal_zero, ih hrest 0 h h']
        | succ n => simpa [matVal_str] using ih hrest (n+1) h h'
      | bool b =>
        have hrest : flatFields rest = true := by simpa [flatFields] using hflat
        cases fuel with
        | zero => simp [matVal_zero, ih hrest 0 h h']
        | succ n => simpa [matVal_bool] using ih hrest (n+1) h h'
      | ref n => simp [flatFields] at hflat

/-- Materializing a reference to a flat record depends only on its field
list. -/
theorem matVal_ref_flat (h h' : Heap) (r r' : Nat) (fs : List (String × JVal))
    (hr : hGet h r = some (.record fs)) (hr' : hGet h' r' = some (.record fs))
    (hflat : flatFields fs = true) (fuel : Nat) :
    matVal fuel h (.ref r) = matVal fuel h' (.ref r') := by
  cases fuel with
  | zero => rfl
  | succ n => simp [matVal_ref, hr, hr', matFields_flat fs hflat n h h']

/-- C10 (amended): each read accessor returns a freshly allocated
one-level copy of its internal object: the call leaves every existing heap
object unchanged, and mutating the returned container does not touch the
internal object.  For the string-valued records (`getComponents`,
`getPrompts`, `getEditedContent`), whose fields hold no references, this
makes successive calls fully independent of caller mutations; `getScope`
and `getCorrections` copy only the top level, so nested structure (the
scope's `components` array, correction objects) stays shared — see the
counterexample. -/
theorem accessor_copy_spec :
    (∀ (h : Heap) (s : HSession) (fs : List (String × JVal)),
      hGet h s.loadedComponentsRef = some (.record fs) →
      getComponentsH h s = (h ++ [.record fs], h.length)) ∧
    (∀ (h : Heap) (s : HSession) (fs : List (String × JVal)),
      hGet h s.promptsRef = some (.record fs) →
      getPromptsH h s = (h ++ [.record fs], h.length)) ∧
    (∀ (h : Heap) (s : HSession) (fs : List (String × JVal)),
      hGet h s.editedContentRef = some (.record fs) →
      getEditedContentH h s = (h ++ [.record fs], h.length)) ∧
    (∀ (h : Heap) (s : HSession) (xs : List JVal),
      hGet h s.correctionsRef = some (.array xs) →
      getCorrectionsH h s = (h ++ [.array xs], h.length)) ∧
    (∀ (h : Heap) (s : HSession) (fs : List (String × JVal)),
      hGet h s.scopeRef = some (.record fs) →
      getScopeH h s = (h ++ [.record fs], h.length)) ∧
    (∀ (h : Heap) (o' : JObj) (i : Nat), i < h.length →
      hGet (h ++ [o']) i = hGet h i) ∧
    (∀ (h : Heap) (s : HSession) (o : JObj) (fs : List (String × JVal))
       (k : String) (v : JVal),
      hGet h s.loadedComponentsRef = some o →
      hGet (recSetField (h ++ [.record fs]) h.length k v) s.loadedComponentsRef
        = some o) ∧
    (∀ (h : Heap) (s : HSession) (fs : List (String × JVal)) (k : String)
       (v : JVal) (fuel : Nat),
      hGet h s.loadedComponentsRef = some (.record fs) → flatFields fs = true →
      matVal fuel (recSetField (getComponentsH h s).1 (getComponentsH h s).2 k v)
          (.ref s.loadedComponentsRef)
        = matVal fuel h (.ref s.loadedComponentsRef) ∧
      matVal fuel
          (getComponentsH
            (recSetField (getComponentsH h s).1 (getComponentsH h s).2 k v) s).1
          (.ref (getComponentsH
            (recSetField (getComponentsH h s).1 (getComponentsH h s).2 k v) s).2)
        = matVal fuel (getComponentsH h s).1 (.ref (getComponentsH h s).2)) := by
  refine ⟨fun h s fs hr => spreadRec_eq h _ fs hr,
    fun h s fs hr => spreadRec_eq h _ fs hr,
    fun h s fs hr => spreadRec_eq h _ fs hr,
    fun h s xs hr => spreadArr_eq h _ xs hr,
    fun h s fs hr => spreadRec_eq h _ fs hr,
    fun h o' i hi => hGet_append_left h o' i hi,
    ?_, ?_⟩
  · intro h s o fs k v hr
    exact recSetField_fresh_preserves h _ o fs k v hr
  · intro h s fs k v fuel hr hflat
    have hspread : getComponentsH h s = (h ++ [.record fs], h.length) :=
      spreadRec_eq h _ fs hr
    have hpres : hGet (recSetField ((h ++ [.record fs] : Heap)) h.length k v)
        s.loadedComponentsRef = some (.record fs) := by
      have := recSetField_fresh_preserves h s.loadedComponentsRef (.record fs) fs k v hr
      exact this
    constructor
    · rw [hspread]
      exact matVal_ref_flat _ h _ _ fs hpres hr hflat fuel
    · rw [hspread]
      have hspread2 : getComponentsH
          (recSetField ((h ++ [.record fs] : Heap)) h.length k v) s
          = (recSetField ((h ++ [.record fs] : Heap)) h.length k v
              ++ [.record fs],
             (recSetField ((h ++ [.record fs] : Heap)) h.length k v).length) :=
        spreadRec_eq _ _ fs hpres
      rw [hspread2]
      exact matVal_ref_flat _ _ _ _ fs
        (hGet_append_self _ (.record fs)) (hGet_append_self _ (.record fs)) hflat fuel

/-- The scope record holds a reference to the shared `components` array. -/
def cexHeap : Heap :=
  [JObj.record [("components", .ref 1), ("cascade", .bool false)],
   JObj.array [.str "pinax"]]

def cexSession : HSession := ⟨0, 0, 0, 1, 0⟩

/-- Counterexample to C10 as stated: `getScope` returns a shallow copy
whose `components` field still references the session's own array.
Pushing onto that array through the returned copy changes the session's
internal scope and what the next `getScope` call returns: the two
successive calls materialize different values, and the internal object is
not independent of caller mutations. -/
theorem getScope_alias_cex :
    (getScopeH cexHeap cexSession).2 = 2 ∧
    recGetField (getScopeH cexHeap cexSession).1 2 "components" = some (.ref 1) ∧
    matVal 3 (getScopeH cexHeap cexSession).1 (.ref 2)
      = .record [("components", .array [.str "pinax"]), ("cascade", .bool false)] ∧
    matVal 3
        (getScopeH (arrPush (getScopeH cexHeap cexSession).1 1 (.str "description"))
          cexSession).1
        (.ref (getScopeH (arrPush (getScopeH cexHeap cexSession).1 1
          (.str "description")) cexSession).2)
      = .record [("components", .array [.str "pinax", .str "description"]),
                 ("cascade", .bool false)] ∧
    matVal 3 (arrPush (getScopeH cexHeap cexSession).1 1 (.str "description"))
        (.ref 0)
      ≠ matVal 3 cexHeap (.ref 0) := by
  refine ⟨rfl, rfl, rfl, rfl, ?_⟩
  intro hEq
  have hc := congrArg (fun t => match t with
    | JTree.record (p :: _) =>
      (match p.2 with
       | JTree.array xs => xs.length
       | _ => 0)
    | _ => 0) hEq
  exact absurd hc (by decide)

def cexFlatHeap : Heap := [JObj.record [("description.md", JVal.str "text")]]

def cexFlatSession : HSession := ⟨0, 0, 0, 0, 0⟩

/-- Witness for C10 (amended): a flat components record is copied freshly,
and mutating the copy leaves the internal object's value (and the next
call's result) unchanged. -/
theorem accessor_copy_spec_witness :
    getComponentsH cexFlatHeap cexFlatSession
      = (cexFlatHeap ++ [.record [("description.md", JVal.str "text")]], 1) ∧
    matVal 2
        (recSetField (getComponentsH cexFlatHeap cexFlatSession).1
          (getComponentsH cexFlatHeap cexFlatSession).2 "description.md"
          (.str "hacked"))
        (.ref 0)
      = matVal 2 cexFlatHeap (.ref 0) :=
  ⟨accessor_copy_spec.1 cexFlatHeap cexFlatSession
      [("description.md", JVal.str "text")] rfl,
   (accessor_copy_spec.2.2.2.2.2.2.2 cexFlatHeap cexFlatSession
      [("description.md", JVal.str "text")] "description.md" (.str "hacked") 2
      rfl rfl).1⟩
